import Mathlib

/-!
# Verification of `pkg/cli/virtualizers.go` (vorteil)

A shallow embedding of the build-and-launch orchestrator in
`src/pkg/cli/virtualizers.go`: the five per-backend entry points
(`runVMware`, `runFirecracker`, `runHyperV`, `runVirtualBox`, `runQEMU`),
the firecracker-specific disk build (`buildFirecracker`), the disk
relocation helper (`saveDisk`), and the global goque-backed IP queue.

External collaborators (the disk build pipeline, the per-backend
virtualizer drivers, the package reader, `vcfg.WithDefaults`) are modelled
by an environment of call outcomes (`Env`): each external call either
succeeds or fails as the environment dictates, and the orchestrator's
control flow, state mutation and event trace are reproduced faithfully
from the source.  Filesystem effects are tracked as the existence of the
scratch directory and the temporary disk file (`FS`), and every external
or filesystem-visible action is recorded in an event trace.
-/

namespace Vorteil

instance {ε α : Type} [DecidableEq ε] [DecidableEq α] : DecidableEq (Except ε α) := fun x y =>
  match x, y with
  | .ok a, .ok b => decidable_of_iff (a = b) (by simp)
  | .error a, .error b => decidable_of_iff (a = b) (by simp)
  | .ok _, .error _ => isFalse (by simp)
  | .error _, .ok _ => isFalse (by simp)

/-- A network interface slot of `vcfg.VCFG` (the fields written by
`buildFirecracker`: `IP`, `Gateway`, `Mask`). -/
structure VCFGNetwork where
  IP : String
  Gateway : String
  Mask : String
deriving DecidableEq, Repr

/-- The `VM` section of `vcfg.VCFG` (the field written by
`runFirecracker`: `Kernel`). -/
structure VCFGVM where
  Kernel : String
deriving DecidableEq, Repr

/-- The configuration `vcfg.VCFG`, restricted to the fields the
orchestrator reads or writes. -/
structure VCFG where
  Networks : List VCFGNetwork
  VM : VCFGVM
deriving DecidableEq, Repr

/-- The constant `iputil.BridgeIP`, the fixed bridge address; the source comment at the
`SetupBridge` call gives its value as 10.26.10.1. -/
def BridgeIP : String := "10.26.10.1"

/-- The goque queue of candidate addresses produced by
`iputil.NewIPStack`: an ordered list of queued addresses plus an
open/closed flag.  `Close` clears the flag; `Dequeue` fails on a closed
or on an empty queue (goque's `ErrDBClosed` / `ErrEmpty`). -/
structure IPQueue where
  items : List String
  isOpen : Bool
deriving DecidableEq, Repr

/-- The goque `Dequeue`: fails if the queue is closed or empty, otherwise
pops the front address. -/
def IPQueue.dequeue (q : IPQueue) : Except String (String × IPQueue) :=
  if q.isOpen then
    match q.items with
    | [] => .error "goque: stack or queue is empty"
    | ip :: rest => .ok (ip, ⟨rest, true⟩)
  else .error "goque: database is closed"

/-- The package-level mutable state of `virtualizers.go`: the global
`var ips *goque.Queue` (`none` models a nil pointer). -/
structure GlobalState where
  ips : Option IPQueue
deriving DecidableEq, Repr

/-- Outcomes of all external calls made by one orchestration, plus the
names chosen for the scratch directory and temporary file.  Each `Bool`
field tells whether the corresponding external call succeeds. -/
structure Env where
  goos : String
  isAvailable : Bool
  fetchBridgeOk : Bool
  setupBridgeOk : Bool
  mkdirOk : Bool
  createFileOk : Bool
  newIPStack : Option (List String)
  createBuilderOk : Bool
  negotiateOk : Bool
  formatBuildOk : Bool
  kernelUsed : String
  buildOk : Bool
  closeFileOk : Bool
  closeReaderOk : Bool
  initOk : Bool
  withDefaultsOk : Bool
  runOk : Bool
  renameOk : Bool
  parentName : String
  tmpFileName : String
deriving DecidableEq, Repr

/-- The package-level flag variables read by the orchestrator
(`flagShell`, `flagRecord`, `flagGUI`). -/
structure Flags where
  flagShell : Bool
  flagRecord : String
  flagGUI : Bool
deriving DecidableEq, Repr

/-- The backend-specific configuration literal each run function builds
and marshals for `virt.Initialize`, with the concrete field values from
the source. -/
inductive BackendConfig where
  | vmware (Headless : Bool) (NetworkType : String)
  | firecracker
  | hyperv (Headless : Bool) (SwitchName : String)
  | virtualbox (Headless : Bool) (NetworkType : String)
  | qemu (Headless : Bool)
deriving DecidableEq, Repr

/-- Observable actions of one orchestration, in program order. -/
inductive Event where
  | mkdir (path : String)
  | fileOpen (path : String)
  | bridgeFetched
  | bridgeSetup (gw : String)
  | dequeue (ip : String)
  | buildDone
  | fileClose
  | readerClose
  | allocVirt
  | kernelAssign (k : String)
  | virtInit (cfg : BackendConfig)
  | start (diskPath : String) (cfg : VCFG) (name : String)
  | rename (src dst : String) (ok : Bool)
  | removeFile (path : String)
  | removeDir (path : String)
  | removeAllDir (path : String)
deriving DecidableEq, Repr

/-- The transient filesystem resources of one build (the Resource Scope):
whether the scratch directory and the temporary disk file exist, whether
the file handle has been closed, and whether the disk was relocated to
the requested output path. -/
structure FS where
  dirExists : Bool
  fileExists : Bool
  fileClosed : Bool
  savedToOutput : Bool
deriving DecidableEq, Repr

/-- The filesystem state before an orchestration allocates anything. -/
def FS.initial : FS := ⟨false, false, false, false⟩

/-- The helper `saveDisk` attempts `os.Rename(sourceDisk, destDisk)`; on failure it
logs and returns the error with the state unchanged; on success the
source file no longer exists and the disk has been relocated. -/
def saveDisk (renameOk : Bool) (src dst : String) (fs : FS) :
    Except String Unit × FS × List Event :=
  if fs.fileExists && renameOk then
    (.ok (), { fs with fileExists := false, savedToOutput := true },
      [.rename src dst true])
  else
    (.error "rename failed", fs, [.rename src dst false])

/-- The deferred cleanup closure shared by all five run functions:
`f.Close()` (result ignored), `saveDisk` when an output path was supplied
(result ignored), then `os.Remove(f.Name())` and `os.Remove(parent)`
(results ignored; removing an absent file fails silently and removing a
non-empty directory fails silently). -/
def deferredCleanup (env : Env) (diskOutput fileName parent : String)
    (fs : FS) : FS × List Event :=
  let fs1 : FS := { fs with fileClosed := true }
  let step2 : FS × List Event :=
    if diskOutput ≠ "" then
      ((saveDisk env.renameOk fileName diskOutput fs1).2.1,
        (saveDisk env.renameOk fileName diskOutput fs1).2.2)
    else (fs1, [])
  let fs3 : FS := { step2.1 with fileExists := false }
  let fs4 : FS :=
    if fs3.dirExists && !fs3.fileExists then { fs3 with dirExists := false }
    else fs3
  (fs4, step2.2 ++ [.removeFile fileName, .removeDir parent])

/-- Effect of `os.RemoveAll(parent)`: removes the scratch directory and anything
still inside it, never failing. -/
def removeAllFS (fs : FS) : FS := { fs with dirExists := false, fileExists := false }

/-- The complete teardown run when a run function returns after creating
the temporary file: the deferred cleanup closure, followed (for the
backends that registered it) by the earlier `defer os.RemoveAll(parent)`. -/
def finishScope (useRemoveAll : Bool) (env : Env)
    (diskOutput fileName parent : String) (fs : FS) : FS × List Event :=
  let c := deferredCleanup env diskOutput fileName parent fs
  if useRemoveAll then (removeAllFS c.1, c.2 ++ [.removeAllDir parent])
  else c

/-- The value returned by a run function together with the final
configuration, global queue state, filesystem state and event trace. -/
structure RunResult where
  result : Except String Unit
  cfg : VCFG
  gs : GlobalState
  fs : FS
  trace : List Event
deriving DecidableEq, Repr

/-- Builds a `RunResult` for an exit taken after the temporary file was
created: runs the scope teardown and appends its events to the trace. -/
def scopeExit (useRemoveAll : Bool) (env : Env)
    (diskOutput fileName parent : String) (r : Except String Unit)
    (cfg : VCFG) (gs : GlobalState) (fs : FS) (tr : List Event) : RunResult :=
  let c := finishScope useRemoveAll env diskOutput fileName parent fs
  ⟨r, cfg, gs, c.1, tr ++ c.2⟩

/-- Result of `buildFirecracker`: the kernel identifier (or error), the
mutated configuration, the global queue state and the events. -/
structure BuildFCResult where
  result : Except String String
  cfg : VCFG
  gs : GlobalState
  trace : List Event
deriving DecidableEq, Repr

/-- Outcome of the `for i := range cfg.Networks` loop in
`buildFirecracker`: the first error (if any), the network slots (earlier
slots stay assigned when a later dequeue fails), the global queue state,
whether the lazy-init branch ran (and hence `defer ips.Close()` was
registered), and the dequeue events. -/
structure ResolveResult where
  err : Option String
  nets : List VCFGNetwork
  gs : GlobalState
  registered : Bool
  trace : List Event
deriving DecidableEq, Repr

/-- The loop of `buildFirecracker`: for each declared network in order,
lazily create the global queue via `iputil.NewIPStack` when `ips == nil`
(recording that `defer ips.Close()` is then registered), dequeue one
address, and write `{IP, Gateway = BridgeIP, Mask = "255.255.255.0"}`
into the slot; stop at the first error, leaving earlier slots assigned
and later slots untouched. -/
def resolveNetworks (env : Env) :
    List VCFGNetwork → GlobalState → Bool → ResolveResult
  | [], gs, reg => ⟨none, [], gs, reg, []⟩
  | n :: rest, gs, reg =>
    let init : Except String (IPQueue × Bool) :=
      match gs.ips with
      | none =>
        match env.newIPStack with
        | none => .error "NewIPStack failed"
        | some l => .ok (⟨l, true⟩, true)
      | some q => .ok (q, reg)
    match init with
    | .error e => ⟨some e, n :: rest, gs, reg, []⟩
    | .ok (q, reg1) =>
      match q.dequeue with
      | .error e => ⟨some e, n :: rest, ⟨some q⟩, reg1, []⟩
      | .ok (ip, q') =>
        let n' : VCFGNetwork := { n with IP := ip, Gateway := BridgeIP, Mask := "255.255.255.0" }
        let r := resolveNetworks env rest ⟨some q'⟩ reg1
        ⟨r.err, n' :: r.nets, r.gs, r.registered, .dequeue ip :: r.trace⟩

/-- If the lazy-init branch ran during this call, `defer ips.Close()`
fires on return and closes the global queue (the pointer stays set). -/
def closeIfRegistered (reg : Bool) (gs : GlobalState) : GlobalState :=
  if reg then ⟨gs.ips.map fun q => { q with isOpen := false }⟩ else gs

/-- The sequential tail of `buildFirecracker` after the network loop:
`vdisk.CreateBuilder`, `NegotiateSize`, `Format.Build`, each aborting on
error, and finally `vimgBuilder.KernelUsed()` on success. -/
def buildFCOutcome (env : Env) (err : Option String) : Except String String :=
  match err with
  | some e => .error e
  | none =>
    if env.createBuilderOk then
      if env.negotiateOk then
        if env.formatBuildOk then .ok env.kernelUsed
        else .error "format build failed"
      else .error "negotiate size failed"
    else .error "create builder failed"

/-- The function `buildFirecracker`: resolve the declared networks through the global
queue (mutating the configuration slot by slot), then build the image and
return the kernel identifier; a `buildDone` event is recorded when
`Format.Build` succeeds.  On return, the deferred `ips.Close()` fires
when the lazy-init branch ran during this call. -/
def buildFirecracker (env : Env) (cfg : VCFG) (gs : GlobalState) : BuildFCResult :=
  let r := resolveNetworks env cfg.Networks gs false
  ⟨buildFCOutcome env r.err, { cfg with Networks := r.nets },
    closeIfRegistered r.registered r.gs,
    if (buildFCOutcome env r.err).isOk then r.trace ++ [.buildDone] else r.trace⟩

/-- The path `filepath.Join(parent, "disk.vmdk")`, the disk file name used by
`runVMware` (vmware validates the extension). -/
def vmwareDiskPath (env : Env) : String := env.parentName ++ "/disk.vmdk"

/-- The path `filepath.Join(parent, "disk.vhd")`, the disk file name used by
`runHyperV` (hyper-v validates the extension). -/
def hypervDiskPath (env : Env) : String := env.parentName ++ "/disk.vhd"

/-- Modelled from the spec: the `run` helper lives elsewhere in the
repository; per §4.4 it is "invoked by the Orchestrator with the finished
disk path, the (possibly kernel-version-amended) configuration, and a
display name" and may fail with StartFailure.  Each run function records
the invocation as a `start` event and returns the outcome dictated by
the environment; this is folded into each run function below. -/
def startOutcome (env : Env) : Except String Unit :=
  if env.runOk then .ok () else .error "start failed"

/-- The entry point `runQEMU`: availability probe, scratch directory and temporary disk
file (with `defer os.RemoveAll(parent)` registered before the directory
and the cleanup closure after the file), `vdisk.Build`, explicit
`f.Close()`, `pkgReader.Close()`, `Alloc`, `qemu.Config{Headless: !flagGUI}`,
`virt.Initialize`, `vcfg.WithDefaults`, then `run(virt, f.Name(), cfg, name)`. -/
def runQEMU (env : Env) (fl : Flags) (cfg : VCFG) (name diskOutput : String)
    (gs : GlobalState) : RunResult :=
  if env.isAvailable then
    if env.mkdirOk then
      if env.createFileOk then
        let fs2 : FS := ⟨true, true, false, false⟩
        let tr2 : List Event := [.mkdir env.parentName, .fileOpen env.tmpFileName]
        if env.buildOk then
          let tr3 := tr2 ++ [.buildDone, .fileClose]
          let fs3 : FS := { fs2 with fileClosed := true }
          if env.closeFileOk then
            let tr4 := tr3 ++ [.readerClose]
            if env.closeReaderOk then
              let tr5 := tr4 ++ [.allocVirt, .virtInit (.qemu (!fl.flagGUI))]
              if env.initOk then
                if env.withDefaultsOk then
                  scopeExit true env diskOutput env.tmpFileName env.parentName
                    (startOutcome env) cfg gs fs3
                    (tr5 ++ [.start env.tmpFileName cfg name])
                else
                  scopeExit true env diskOutput env.tmpFileName env.parentName
                    (.error "WithDefaults failed") cfg gs fs3 tr5
              else
                scopeExit true env diskOutput env.tmpFileName env.parentName
                  (.error "virtualizer init failed") cfg gs fs3 tr5
            else
              scopeExit true env diskOutput env.tmpFileName env.parentName
                (.error "reader close failed") cfg gs fs3 tr4
          else
            scopeExit true env diskOutput env.tmpFileName env.parentName
              (.error "file close failed") cfg gs fs3 tr3
        else
          scopeExit true env diskOutput env.tmpFileName env.parentName
            (.error "build failed") cfg gs fs2 tr2
      else ⟨.error "tempfile failed", cfg, gs, removeAllFS ⟨true, false, false, false⟩,
        [.mkdir env.parentName, .removeAllDir env.parentName]⟩
    else ⟨.error "mkdir failed", cfg, gs, removeAllFS FS.initial,
      [.removeAllDir env.parentName]⟩
  else ⟨.error "qemu not installed on system", cfg, gs, FS.initial, []⟩

/-- The entry point `runVirtualBox`: same sequencing as `runQEMU` with virtualbox's
availability message and `virtualbox.Config{Headless: !flagGUI,
NetworkType: "nat"}`. -/
def runVirtualBox (env : Env) (fl : Flags) (cfg : VCFG) (name diskOutput : String)
    (gs : GlobalState) : RunResult :=
  if env.isAvailable then
    if env.mkdirOk then
      if env.createFileOk then
        let fs2 : FS := ⟨true, true, false, false⟩
        let tr2 : List Event := [.mkdir env.parentName, .fileOpen env.tmpFileName]
        if env.buildOk then
          let tr3 := tr2 ++ [.buildDone, .fileClose]
          let fs3 : FS := { fs2 with fileClosed := true }
          if env.closeFileOk then
            let tr4 := tr3 ++ [.readerClose]
            if env.closeReaderOk then
              let tr5 := tr4 ++ [.allocVirt, .virtInit (.virtualbox (!fl.flagGUI) "nat")]
              if env.initOk then
                if env.withDefaultsOk then
                  scopeExit true env diskOutput env.tmpFileName env.parentName
                    (startOutcome env) cfg gs fs3
                    (tr5 ++ [.start env.tmpFileName cfg name])
                else
                  scopeExit true env diskOutput env.tmpFileName env.parentName
                    (.error "WithDefaults failed") cfg gs fs3 tr5
              else
                scopeExit true env diskOutput env.tmpFileName env.parentName
                  (.error "virtualizer init failed") cfg gs fs3 tr5
            else
              scopeExit true env diskOutput env.tmpFileName env.parentName
                (.error "reader close failed") cfg gs fs3 tr4
          else
            scopeExit true env diskOutput env.tmpFileName env.parentName
              (.error "file close failed") cfg gs fs3 tr3
        else
          scopeExit true env diskOutput env.tmpFileName env.parentName
            (.error "build failed") cfg gs fs2 tr2
      else ⟨.error "tempfile failed", cfg, gs, removeAllFS ⟨true, false, false, false⟩,
        [.mkdir env.parentName, .removeAllDir env.parentName]⟩
    else ⟨.error "mkdir failed", cfg, gs, removeAllFS FS.initial,
      [.removeAllDir env.parentName]⟩
  else ⟨.error "virtualbox not found installed on system", cfg, gs, FS.initial, []⟩

/-- The entry point `runVMware`: availability probe, scratch directory and
`os.Create(filepath.Join(parent, "disk.vmdk"))` (no `os.RemoveAll` defer;
the cleanup closure is registered only after the file is created),
`vdisk.Build`, `f.Close()`, `pkgReader.Close()`, `Alloc`,
`vmware.Config{Headless: !flagGUI, NetworkType: "nat"}`, `virt.Initialize`,
`vcfg.WithDefaults`, then `run`. -/
def runVMware (env : Env) (fl : Flags) (cfg : VCFG) (name diskOutput : String)
    (gs : GlobalState) : RunResult :=
  if env.isAvailable then
    if env.mkdirOk then
      if env.createFileOk then
        let fs2 : FS := ⟨true, true, false, false⟩
        let tr2 : List Event := [.mkdir env.parentName, .fileOpen (vmwareDiskPath env)]
        if env.buildOk then
          let tr3 := tr2 ++ [.buildDone, .fileClose]
          let fs3 : FS := { fs2 with fileClosed := true }
          if env.closeFileOk then
            let tr4 := tr3 ++ [.readerClose]
            if env.closeReaderOk then
              let tr5 := tr4 ++ [.allocVirt, .virtInit (.vmware (!fl.flagGUI) "nat")]
              if env.initOk then
                if env.withDefaultsOk then
                  scopeExit false env diskOutput (vmwareDiskPath env) env.parentName
                    (startOutcome env) cfg gs fs3
                    (tr5 ++ [.start (vmwareDiskPath env) cfg name])
                else
                  scopeExit false env diskOutput (vmwareDiskPath env) env.parentName
                    (.error "WithDefaults failed") cfg gs fs3 tr5
              else
                scopeExit false env diskOutput (vmwareDiskPath env) env.parentName
                  (.error "virtualizer init failed") cfg gs fs3 tr5
            else
              scopeExit false env diskOutput (vmwareDiskPath env) env.parentName
                (.error "reader close failed") cfg gs fs3 tr4
          else
            scopeExit false env diskOutput (vmwareDiskPath env) env.parentName
              (.error "file close failed") cfg gs fs3 tr3
        else
          scopeExit false env diskOutput (vmwareDiskPath env) env.parentName
            (.error "build failed") cfg gs fs2 tr2
      else ⟨.error "create file failed", cfg, gs, ⟨true, false, false, false⟩,
        [.mkdir env.parentName]⟩
    else ⟨.error "mkdir failed", cfg, gs, FS.initial, []⟩
  else ⟨.error "vmware is not installed on your system", cfg, gs, FS.initial, []⟩

/-- The entry point `runHyperV`: a windows-only OS check, then the same sequencing as
`runVMware` with the file `disk.vhd`, no `os.RemoveAll` defer, and
`hyperv.Config{Headless: !flagGUI, SwitchName: "Default Switch"}`. -/
def runHyperV (env : Env) (fl : Flags) (cfg : VCFG) (name diskOutput : String)
    (gs : GlobalState) : RunResult :=
  if env.goos = "windows" then
    if env.isAvailable then
      if env.mkdirOk then
        if env.createFileOk then
          let fs2 : FS := ⟨true, true, false, false⟩
          let tr2 : List Event := [.mkdir env.parentName, .fileOpen (hypervDiskPath env)]
          if env.buildOk then
            let tr3 := tr2 ++ [.buildDone, .fileClose]
            let fs3 : FS := { fs2 with fileClosed := true }
            if env.closeFileOk then
              let tr4 := tr3 ++ [.readerClose]
              if env.closeReaderOk then
                let tr5 := tr4 ++
                  [.allocVirt, .virtInit (.hyperv (!fl.flagGUI) "Default Switch")]
                if env.initOk then
                  if env.withDefaultsOk then
                    scopeExit false env diskOutput (hypervDiskPath env) env.parentName
                      (startOutcome env) cfg gs fs3
                      (tr5 ++ [.start (hypervDiskPath env) cfg name])
                  else
                    scopeExit false env diskOutput (hypervDiskPath env) env.parentName
                      (.error "WithDefaults failed") cfg gs fs3 tr5
                else
                  scopeExit false env diskOutput (hypervDiskPath env) env.parentName
                    (.error "virtualizer init failed") cfg gs fs3 tr5
              else
                scopeExit false env diskOutput (hypervDiskPath env) env.parentName
                  (.error "reader close failed") cfg gs fs3 tr4
            else
              scopeExit false env diskOutput (hypervDiskPath env) env.parentName
                (.error "file close failed") cfg gs fs3 tr3
          else
            scopeExit false env diskOutput (hypervDiskPath env) env.parentName
              (.error "build failed") cfg gs fs2 tr2
        else ⟨.error "create file failed", cfg, gs, ⟨true, false, false, false⟩,
          [.mkdir env.parentName]⟩
      else ⟨.error "mkdir failed", cfg, gs, FS.initial, []⟩
    else ⟨.error "hyper-v is not enabled on your system", cfg, gs, FS.initial, []⟩
  else ⟨.error "hyper-v is only available on windows system", cfg, gs, FS.initial, []⟩

/-- The entry point `runFirecracker`: a linux-only OS check, availability probe,
`FetchBridgeDevice` with `SetupBridge(log, iputil.BridgeIP)` as fallback,
scratch directory (with `defer os.RemoveAll(parent)`) and temporary file,
`vcfg.WithDefaults` before the build, `buildFirecracker` (which mutates
the configuration and the global queue), `cfg.VM.Kernel = kernelVer`,
`f.Close()`, `pkgReader.Close()`, `Alloc`, a non-fatal GUI warning,
`firecracker.Config{}`, `virt.Initialize`, then `run`. -/
def runFirecracker (env : Env) (fl : Flags) (cfg : VCFG) (name diskOutput : String)
    (gs : GlobalState) : RunResult :=
  if env.goos = "linux" then
    if env.isAvailable then
      if env.fetchBridgeOk || env.setupBridgeOk then
        let tr0 : List Event :=
          if env.fetchBridgeOk then [.bridgeFetched] else [.bridgeSetup BridgeIP]
        if env.mkdirOk then
          if env.createFileOk then
            let fs2 : FS := ⟨true, true, false, false⟩
            let tr2 := tr0 ++ [.mkdir env.parentName, .fileOpen env.tmpFileName]
            if env.withDefaultsOk then
              let b := buildFirecracker env cfg gs
              match b.result with
              | .error e =>
                scopeExit true env diskOutput env.tmpFileName env.parentName
                  (.error e) b.cfg b.gs fs2 (tr2 ++ b.trace)
              | .ok kernelVer =>
                let cfg2 : VCFG := { b.cfg with VM := ⟨kernelVer⟩ }
                let tr4 := tr2 ++ b.trace ++ [.kernelAssign kernelVer, .fileClose]
                let fs3 : FS := { fs2 with fileClosed := true }
                if env.closeFileOk then
                  let tr5 := tr4 ++ [.readerClose]
                  if env.closeReaderOk then
                    let tr6 := tr5 ++ [.allocVirt, .virtInit .firecracker]
                    if env.initOk then
                      scopeExit true env diskOutput env.tmpFileName env.parentName
                        (startOutcome env) cfg2 b.gs fs3
                        (tr6 ++ [.start env.tmpFileName cfg2 name])
                    else
                      scopeExit true env diskOutput env.tmpFileName env.parentName
                        (.error "virtualizer init failed") cfg2 b.gs fs3 tr6
                  else
                    scopeExit true env diskOutput env.tmpFileName env.parentName
                      (.error "reader close failed") cfg2 b.gs fs3 tr5
                else
                  scopeExit true env diskOutput env.tmpFileName env.parentName
                    (.error "file close failed") cfg2 b.gs fs3 tr4
            else
              scopeExit true env diskOutput env.tmpFileName env.parentName
                (.error "WithDefaults failed") cfg gs fs2 tr2
          else ⟨.error "tempfile failed", cfg, gs, removeAllFS ⟨true, false, false, false⟩,
            tr0 ++ [.mkdir env.parentName, .removeAllDir env.parentName]⟩
        else ⟨.error "mkdir failed", cfg, gs, removeAllFS FS.initial,
          tr0 ++ [.removeAllDir env.parentName]⟩
      else ⟨.error "bridge setup failed", cfg, gs, FS.initial, [.bridgeSetup BridgeIP]⟩
    else ⟨.error "firecracker is not installed on your system", cfg, gs, FS.initial, []⟩
  else ⟨.error "firecracker is only available on linux", cfg, gs, FS.initial, []⟩

/-! ## Derived notions used by the verified properties -/

/-- Recognizes a dequeue event. -/
def Event.isDequeue : Event → Bool
  | .dequeue _ => true
  | _ => false

/-- Recognizes the reader-close event. -/
def Event.isReaderClose : Event → Bool
  | .readerClose => true
  | _ => false

/-- Recognizes the virtualizer-allocation event. -/
def Event.isAllocVirt : Event → Bool
  | .allocVirt => true
  | _ => false

/-- Recognizes a virtualizer-init event. -/
def Event.isVirtInit : Event → Bool
  | .virtInit _ => true
  | _ => false

/-- Recognizes the build-completed event. -/
def Event.isBuildDone : Event → Bool
  | .buildDone => true
  | _ => false

/-- Recognizes a start event. -/
def Event.isStart : Event → Bool
  | .start _ _ _ => true
  | _ => false

/-- Recognizes a kernel-assignment event. -/
def Event.isKernelAssign : Event → Bool
  | .kernelAssign _ => true
  | _ => false

/-- Recognizes a relocation attempt. -/
def Event.isRename : Event → Bool
  | .rename _ _ _ => true
  | _ => false

/-- Some `p`-event happens strictly before every `q`-event: the trace
splits around a `p`-event with no `q`-event before it and at least one
`q`-event after it. -/
def occursBefore (p q : Event → Bool) (tr : List Event) : Prop :=
  ∃ l₁ e l₂, tr = l₁ ++ e :: l₂ ∧ p e = true ∧ l₁.countP q = 0 ∧ 0 < l₂.countP q

/-- The addresses the allocator can currently serve: the pre-populated
list when the global queue is not yet constructed, or the queued items of
an open queue. -/
def availableIPs (env : Env) (gs : GlobalState) : Option (List String) :=
  match gs.ips with
  | none => env.newIPStack
  | some q => if q.isOpen then some q.items else none

/-- The intended effect of the network loop: assign each slot the next
address in order, with the fixed gateway and mask; slots beyond the
supplied addresses stay untouched. -/
def assignNets : List VCFGNetwork → List String → List VCFGNetwork
  | [], _ => []
  | n :: ns, [] => n :: ns
  | n :: ns, ip :: rest =>
    { n with IP := ip, Gateway := BridgeIP, Mask := "255.255.255.0" } :: assignNets ns rest

/-! ## Behaviour of the network loop -/

lemma resolveNetworks_ok (env : Env) :
    ∀ (nets : List VCFGNetwork) (l : List String) (reg : Bool),
      nets.length ≤ l.length →
      resolveNetworks env nets ⟨some ⟨l, true⟩⟩ reg =
        ⟨none, assignNets nets l, ⟨some ⟨l.drop nets.length, true⟩⟩, reg,
          (l.take nets.length).map Event.dequeue⟩
  | [], l, reg, _ => by simp [resolveNetworks, assignNets]
  | n :: ns, [], reg, h => by simp at h
  | n :: ns, ip :: l, reg, h => by
    have ih := resolveNetworks_ok env ns l reg (by simpa using h)
    simp [resolveNetworks, IPQueue.dequeue, assignNets, ih]

lemma resolveNetworks_exhausted (env : Env) :
    ∀ (nets : List VCFGNetwork) (l : List String) (reg : Bool),
      l.length < nets.length →
      resolveNetworks env nets ⟨some ⟨l, true⟩⟩ reg =
        ⟨some "goque: stack or queue is empty", assignNets nets l,
          ⟨some ⟨[], true⟩⟩, reg, l.map Event.dequeue⟩
  | [], l, reg, h => by simp at h
  | n :: ns, [], reg, h => by simp [resolveNetworks, IPQueue.dequeue, assignNets]
  | n :: ns, ip :: l, reg, h => by
    have ih := resolveNetworks_exhausted env ns l reg (by simpa using h)
    simp [resolveNetworks, IPQueue.dequeue, assignNets, ih]

lemma resolveNetworks_lazyInit (env : Env) (n : VCFGNetwork) (nets : List VCFGNetwork)
    (l : List String) (reg : Bool) (h : env.newIPStack = some l) :
    resolveNetworks env (n :: nets) ⟨none⟩ reg =
      resolveNetworks env (n :: nets) ⟨some ⟨l, true⟩⟩ true := by
  simp [resolveNetworks, h]

lemma assignNets_map_IP :
    ∀ (ns : List VCFGNetwork) (l : List String), ns.length ≤ l.length →
      (assignNets ns l).map (fun x => x.IP) = l.take ns.length
  | [], l, _ => by simp [assignNets]
  | n :: ns, [], h => by simp at h
  | n :: ns, ip :: l, h => by
    simp [assignNets, assignNets_map_IP ns l (by simpa using h)]

lemma assignNets_gw_mask :
    ∀ (ns : List VCFGNetwork) (l : List String), ns.length ≤ l.length →
      ∀ x ∈ assignNets ns l, x.Gateway = BridgeIP ∧ x.Mask = "255.255.255.0"
  | [], l, _ => by simp [assignNets]
  | n :: ns, [], h => by simp at h
  | n :: ns, ip :: l, h => by
    have ih := assignNets_gw_mask ns l (by simpa using h)
    simp only [assignNets, List.mem_cons]
    rintro x (rfl | hx)
    · exact ⟨rfl, rfl⟩
    · exact ih x hx

lemma assignNets_take :
    ∀ (ns : List VCFGNetwork) (l : List String),
      (assignNets ns l).take l.length = assignNets (ns.take l.length) l
  | [], l => by simp [assignNets]
  | n :: ns, [] => by simp [assignNets]
  | n :: ns, ip :: l => by
    simp [assignNets, assignNets_take ns l]

lemma assignNets_drop :
    ∀ (ns : List VCFGNetwork) (l : List String),
      (assignNets ns l).drop l.length = ns.drop l.length
  | [], l => by simp [assignNets]
  | n :: ns, [] => by simp [assignNets]
  | n :: ns, ip :: l => by
    simp [assignNets, assignNets_drop ns l]

/-! ## Behaviour of the scope teardown -/

lemma finishScope_fs (b : Bool) (env : Env) (out fn p : String) (fs : FS) :
    (finishScope b env out fn p fs).1 =
      ⟨false, false, true,
        if out ≠ "" ∧ fs.fileExists = true ∧ env.renameOk = true then true
        else fs.savedToOutput⟩ := by
  unfold finishScope deferredCleanup saveDisk removeAllFS
  by_cases h1 : out = "" <;> by_cases h2 : fs.fileExists <;>
    by_cases h3 : env.renameOk <;> by_cases h4 : fs.dirExists <;>
    cases b <;> simp_all

lemma finishScope_clean (b : Bool) (env : Env) (out fn p : String) (fs : FS) :
    (finishScope b env out fn p fs).1.fileExists = false ∧
    (finishScope b env out fn p fs).1.dirExists = false := by
  rw [finishScope_fs]; exact ⟨rfl, rfl⟩

lemma finishScope_trace (b : Bool) (env : Env) (out fn p : String) (fs : FS) :
    (finishScope b env out fn p fs).2 =
      (if out ≠ "" then [Event.rename fn out (fs.fileExists && env.renameOk)] else []) ++
      [Event.removeFile fn, Event.removeDir p] ++
      (if b then [Event.removeAllDir p] else []) := by
  unfold finishScope deferredCleanup saveDisk
  by_cases h1 : out = "" <;> by_cases h2 : fs.fileExists <;>
    by_cases h3 : env.renameOk <;> cases b <;> simp_all

lemma scopeExit_result (b : Bool) (env : Env) (out fn p : String)
    (r : Except String Unit) (cfg : VCFG) (gs : GlobalState) (fs : FS)
    (tr : List Event) :
    (scopeExit b env out fn p r cfg gs fs tr).result = r := rfl

lemma scopeExit_fs (b : Bool) (env : Env) (out fn p : String)
    (r : Except String Unit) (cfg : VCFG) (gs : GlobalState) (fs : FS)
    (tr : List Event) :
    (scopeExit b env out fn p r cfg gs fs tr).fs = (finishScope b env out fn p fs).1 := rfl

lemma scopeExit_trace (b : Bool) (env : Env) (out fn p : String)
    (r : Except String Unit) (cfg : VCFG) (gs : GlobalState) (fs : FS)
    (tr : List Event) :
    (scopeExit b env out fn p r cfg gs fs tr).trace =
      tr ++ (finishScope b env out fn p fs).2 := rfl

lemma scopeExit_cfg (b : Bool) (env : Env) (out fn p : String)
    (r : Except String Unit) (cfg : VCFG) (gs : GlobalState) (fs : FS)
    (tr : List Event) :
    (scopeExit b env out fn p r cfg gs fs tr).cfg = cfg := rfl

lemma scopeExit_gs (b : Bool) (env : Env) (out fn p : String)
    (r : Except String Unit) (cfg : VCFG) (gs : GlobalState) (fs : FS)
    (tr : List Event) :
    (scopeExit b env out fn p r cfg gs fs tr).gs = gs := rfl

/-! ## Projections of `buildFirecracker` -/

lemma buildFirecracker_cfg (env : Env) (cfg : VCFG) (gs : GlobalState) :
    (buildFirecracker env cfg gs).cfg =
      { cfg with Networks := (resolveNetworks env cfg.Networks gs false).nets } := rfl

lemma buildFirecracker_gs (env : Env) (cfg : VCFG) (gs : GlobalState) :
    (buildFirecracker env cfg gs).gs =
      closeIfRegistered (resolveNetworks env cfg.Networks gs false).registered
        (resolveNetworks env cfg.Networks gs false).gs := rfl

lemma buildFirecracker_result (env : Env) (cfg : VCFG) (gs : GlobalState) :
    (buildFirecracker env cfg gs).result =
      buildFCOutcome env (resolveNetworks env cfg.Networks gs false).err := rfl

lemma buildFirecracker_trace_countP (env : Env) (cfg : VCFG) (gs : GlobalState)
    (p : Event → Bool) (hp : p .buildDone = false) :
    (buildFirecracker env cfg gs).trace.countP p =
      (resolveNetworks env cfg.Networks gs false).trace.countP p := by
  unfold buildFirecracker
  dsimp only
  split <;> simp [List.countP_append, List.countP_cons, hp]

lemma closeIfRegistered_items (reg : Bool) (items : List String) (op : Bool) :
    ∃ q, (closeIfRegistered reg ⟨some ⟨items, op⟩⟩).ips = some q ∧ q.items = items := by
  cases reg
  · exact ⟨⟨items, op⟩, rfl, rfl⟩
  · exact ⟨⟨items, false⟩, rfl, rfl⟩

lemma resolveNetworks_from_available (env : Env) (nets : List VCFGNetwork)
    (gs : GlobalState) (l : List String) (hq : availableIPs env gs = some l)
    (hlen : nets.length ≤ l.length) :
    (resolveNetworks env nets gs false).err = none ∧
    (resolveNetworks env nets gs false).nets = assignNets nets l ∧
    (resolveNetworks env nets gs false).trace =
      (l.take nets.length).map Event.dequeue ∧
    (nets ≠ [] → (resolveNetworks env nets gs false).gs =
      ⟨some ⟨l.drop nets.length, true⟩⟩) := by
  rcases gs with ⟨_ | ⟨items, op⟩⟩
  · have hl : env.newIPStack = some l := by simpa [availableIPs] using hq
    cases nets with
    | nil => simp [resolveNetworks, assignNets]
    | cons n ns =>
      rw [resolveNetworks_lazyInit env n ns l false hl,
        resolveNetworks_ok env (n :: ns) l true hlen]
      simp
  · cases op with
    | false => simp [availableIPs] at hq
    | true =>
      have hitems : items = l := by simpa [availableIPs] using hq
      subst hitems
      rw [resolveNetworks_ok env nets items false hlen]
      simp

lemma countP_dequeue_map (l : List String) :
    (l.map Event.dequeue).countP Event.isDequeue = l.length := by
  induction l with
  | nil => rfl
  | cons x xs ih => simp [List.countP_cons, ih, Event.isDequeue]

/-! ## Claims -/

/-- A concrete environment in which every external call succeeds. -/
def envAll : Env :=
  ⟨"linux", true, true, true, true, true,
    some ["10.26.10.2", "10.26.10.3", "10.26.10.4"], true, true, true, "21.3.5",
    true, true, true, true, true, true, true, "p", "f"⟩

/-- A concrete environment on a host where no backend is available. -/
def envNoAvail : Env :=
  ⟨"plan9", false, true, true, true, true, some [], true, true, true, "21.3.5",
    true, true, true, true, true, true, true, "p", "f"⟩

/-- A concrete flag assignment: no shell, no record, no GUI. -/
def flagsW : Flags := ⟨false, "", false⟩

/-- A concrete configuration with no declared networks. -/
def cfgW : VCFG := ⟨[], ⟨""⟩⟩

/-- C3: for every firecracker build whose configuration declares N
network interfaces and whose allocator can serve at least N addresses,
`buildFirecracker` dequeues exactly N addresses, assigns them to the
interfaces in declaration order, and sets each interface's gateway to the
fixed bridge address and its mask to the fixed /24 mask. -/
theorem c3_firecracker_dequeues_in_order (env : Env) (cfg : VCFG) (gs : GlobalState)
    (l : List String) (hq : availableIPs env gs = some l)
    (hlen : cfg.Networks.length ≤ l.length) :
    (buildFirecracker env cfg gs).trace.countP Event.isDequeue = cfg.Networks.length ∧
    (buildFirecracker env cfg gs).cfg.Networks.map (fun x => x.IP) =
      l.take cfg.Networks.length ∧
    (∀ x ∈ (buildFirecracker env cfg gs).cfg.Networks,
      x.Gateway = BridgeIP ∧ x.Mask = "255.255.255.0") ∧
    (cfg.Networks ≠ [] → ∃ q, (buildFirecracker env cfg gs).gs.ips = some q ∧
      q.items = l.drop cfg.Networks.length) := by
  obtain ⟨nets, vm⟩ := cfg
  dsimp only at hlen ⊢
  obtain ⟨he, hn, ht, hg⟩ := resolveNetworks_from_available env nets gs l hq hlen
  refine ⟨?_, ?_, ?_, ?_⟩
  · rw [buildFirecracker_trace_countP env ⟨nets, vm⟩ gs Event.isDequeue rfl]
    dsimp only
    rw [ht, countP_dequeue_map, List.length_take, Nat.min_eq_left hlen]
  · rw [buildFirecracker_cfg]
    dsimp only
    rw [hn]
    exact assignNets_map_IP nets l hlen
  · rw [buildFirecracker_cfg]
    dsimp only
    rw [hn]
    exact assignNets_gw_mask nets l hlen
  · intro hne
    rw [buildFirecracker_gs]
    dsimp only
    rw [hg hne]
    exact closeIfRegistered_items _ _ _

/-- C3 witness: a concrete two-interface build on a fresh allocator
dequeues exactly two addresses in order with the fixed gateway and mask. -/
theorem c3_witness :
    availableIPs ⟨"linux", true, true, true, true, true,
        some ["10.26.10.2", "10.26.10.3", "10.26.10.4"], true, true, true, "21.3.5",
        true, true, true, true, true, true, true, "p", "f"⟩ ⟨none⟩ =
      some ["10.26.10.2", "10.26.10.3", "10.26.10.4"] ∧
    (buildFirecracker ⟨"linux", true, true, true, true, true,
        some ["10.26.10.2", "10.26.10.3", "10.26.10.4"], true, true, true, "21.3.5",
        true, true, true, true, true, true, true, "p", "f"⟩
      ⟨[⟨"", "", ""⟩, ⟨"", "", ""⟩], ⟨""⟩⟩ ⟨none⟩).trace.countP Event.isDequeue = 2 ∧
    (buildFirecracker ⟨"linux", true, true, true, true, true,
        some ["10.26.10.2", "10.26.10.3", "10.26.10.4"], true, true, true, "21.3.5",
        true, true, true, true, true, true, true, "p", "f"⟩
      ⟨[⟨"", "", ""⟩, ⟨"", "", ""⟩], ⟨""⟩⟩ ⟨none⟩).cfg.Networks.map (fun x => x.IP) =
      ["10.26.10.2", "10.26.10.3"] := by
  refine ⟨by decide, ?_, ?_⟩
  · exact (c3_firecracker_dequeues_in_order _ _ _
      ["10.26.10.2", "10.26.10.3", "10.26.10.4"] (by decide) (by decide)).1
  · exact (c3_firecracker_dequeues_in_order _ _ _
      ["10.26.10.2", "10.26.10.3", "10.26.10.4"] (by decide) (by decide)).2.1

/-- C10: if the allocator holds only k addresses (0 < k) while the
configuration declares more than k interfaces, `buildFirecracker` returns
the dequeue error, but interfaces 0 through k-1 keep their assigned
address, gateway and mask, and the later slots are untouched — no
rollback. -/
theorem c10_partial_assignment_kept (env : Env) (cfg : VCFG) (gs : GlobalState)
    (l : List String) (hq : availableIPs env gs = some l)
    (hlt : l.length < cfg.Networks.length) (hpos : 0 < l.length) :
    (buildFirecracker env cfg gs).result = .error "goque: stack or queue is empty" ∧
    ((buildFirecracker env cfg gs).cfg.Networks.take l.length).map (fun x => x.IP) = l ∧
    (∀ x ∈ (buildFirecracker env cfg gs).cfg.Networks.take l.length,
      x.Gateway = BridgeIP ∧ x.Mask = "255.255.255.0") ∧
    (buildFirecracker env cfg gs).cfg.Networks.drop l.length =
      cfg.Networks.drop l.length := by
  obtain ⟨nets, vm⟩ := cfg
  dsimp only at hlt ⊢
  have hkey : (resolveNetworks env nets gs false).err =
        some "goque: stack or queue is empty" ∧
      (resolveNetworks env nets gs false).nets = assignNets nets l := by
    rcases gs with ⟨_ | ⟨items, op⟩⟩
    · have hl : env.newIPStack = some l := by simpa [availableIPs] using hq
      cases nets with
      | nil => simp at hlt
      | cons n ns =>
        rw [resolveNetworks_lazyInit env n ns l false hl,
          resolveNetworks_exhausted env (n :: ns) l true hlt]
        exact ⟨rfl, rfl⟩
    · cases op with
      | false => simp [availableIPs] at hq
      | true =>
        have hitems : items = l := by simpa [availableIPs] using hq
        subst hitems
        rw [resolveNetworks_exhausted env nets items false hlt]
        exact ⟨rfl, rfl⟩
  obtain ⟨he, hn⟩ := hkey
  have hlelen : l.length ≤ nets.length := Nat.le_of_lt hlt
  have htk : (nets.take l.length).length = l.length := by
    simp [List.length_take, Nat.min_eq_left hlelen]
  refine ⟨?_, ?_, ?_, ?_⟩
  · rw [buildFirecracker_result]
    dsimp only
    rw [he]
    rfl
  · rw [buildFirecracker_cfg]
    dsimp only
    rw [hn, assignNets_take, assignNets_map_IP _ _ (le_of_eq htk), htk, List.take_length]
  · rw [buildFirecracker_cfg]
    dsimp only
    rw [hn, assignNets_take]
    exact assignNets_gw_mask _ _ (le_of_eq htk)
  · rw [buildFirecracker_cfg]
    dsimp only
    rw [hn]
    exact assignNets_drop nets l

/-- C10 witness: with one address available and two declared interfaces,
the build fails at the second dequeue while the first interface keeps its
address. -/
theorem c10_witness :
    availableIPs ⟨"linux", true, true, true, true, true, some ["10.26.10.2"],
        true, true, true, "21.3.5", true, true, true, true, true, true, true, "p", "f"⟩
      ⟨none⟩ = some ["10.26.10.2"] ∧
    (buildFirecracker ⟨"linux", true, true, true, true, true, some ["10.26.10.2"],
        true, true, true, "21.3.5", true, true, true, true, true, true, true, "p", "f"⟩
      ⟨[⟨"", "", ""⟩, ⟨"old", "old", "old"⟩], ⟨""⟩⟩ ⟨none⟩).result =
      .error "goque: stack or queue is empty" ∧
    ((buildFirecracker ⟨"linux", true, true, true, true, true, some ["10.26.10.2"],
        true, true, true, "21.3.5", true, true, true, true, true, true, true, "p", "f"⟩
      ⟨[⟨"", "", ""⟩, ⟨"old", "old", "old"⟩], ⟨""⟩⟩ ⟨none⟩).cfg.Networks.take 1).map
        (fun x => x.IP) = ["10.26.10.2"] := by
  refine ⟨by decide, ?_, ?_⟩
  · exact (c10_partial_assignment_kept _ _ _ ["10.26.10.2"] (by decide) (by decide)
      (by decide)).1
  · exact (c10_partial_assignment_kept _ _ _ ["10.26.10.2"] (by decide) (by decide)
      (by decide)).2.1

/-- C6 input: a process whose allocator can serve three addresses and
whose external build steps all succeed. -/
def c6Env : Env :=
  ⟨"linux", true, true, true, true, true, some ["10.26.10.2", "10.26.10.3", "10.26.10.4"],
    true, true, true, "21.3.5", true, true, true, true, true, true, true, "p", "f"⟩

/-- C6 input: a configuration declaring one network interface. -/
def c6Cfg : VCFG := ⟨[⟨"", "", ""⟩], ⟨""⟩⟩

/-- C6: the code contradicts the claim.  The queue is constructed lazily
on the first network-bearing build and that build succeeds, but because
`buildFirecracker` registers `defer ips.Close()` inside the lazy-init
branch, the global queue is closed as soon as that first build returns;
a second build in the same process that declares a network then fails to
dequeue even though addresses remain queued. -/
theorem c6_queue_closed_after_first_build :
    (buildFirecracker c6Env c6Cfg ⟨none⟩).result = .ok "21.3.5" ∧
    (buildFirecracker c6Env c6Cfg ⟨none⟩).gs =
      ⟨some ⟨["10.26.10.3", "10.26.10.4"], false⟩⟩ ∧
    (buildFirecracker c6Env c6Cfg
        (buildFirecracker c6Env c6Cfg ⟨none⟩).gs).result =
      .error "goque: database is closed" := by
  refine ⟨by decide, by decide, by decide⟩

/-- C2: for every orchestration call, if the availability probe returns
false, or the backend is platform-restricted and the host OS family does
not match (firecracker requires linux, hyper-v requires windows), the
call returns a descriptive error before any resource is allocated: the
returned state carries no scratch directory, no temporary file, an
unchanged allocator, and an empty event trace. -/
theorem c2_fail_fast_before_allocation (env : Env) (fl : Flags) (cfg : VCFG)
    (name out : String) (gs : GlobalState) :
    (env.isAvailable = false →
      runVMware env fl cfg name out gs =
        ⟨.error "vmware is not installed on your system", cfg, gs, FS.initial, []⟩ ∧
      runVirtualBox env fl cfg name out gs =
        ⟨.error "virtualbox not found installed on system", cfg, gs, FS.initial, []⟩ ∧
      runQEMU env fl cfg name out gs =
        ⟨.error "qemu not installed on system", cfg, gs, FS.initial, []⟩) ∧
    (env.goos ≠ "linux" →
      runFirecracker env fl cfg name out gs =
        ⟨.error "firecracker is only available on linux", cfg, gs, FS.initial, []⟩) ∧
    (env.goos = "linux" → env.isAvailable = false →
      runFirecracker env fl cfg name out gs =
        ⟨.error "firecracker is not installed on your system", cfg, gs, FS.initial, []⟩) ∧
    (env.goos ≠ "windows" →
      runHyperV env fl cfg name out gs =
        ⟨.error "hyper-v is only available on windows system", cfg, gs, FS.initial, []⟩) ∧
    (env.goos = "windows" → env.isAvailable = false →
      runHyperV env fl cfg name out gs =
        ⟨.error "hyper-v is not enabled on your system", cfg, gs, FS.initial, []⟩) := by
  refine ⟨fun h => ⟨?_, ?_, ?_⟩, fun h => ?_, fun h1 h2 => ?_, fun h => ?_,
    fun h1 h2 => ?_⟩
  · simp [runVMware, h]
  · simp [runVirtualBox, h]
  · simp [runQEMU, h]
  · simp [runFirecracker, h]
  · simp [runFirecracker, h1, h2]
  · simp [runHyperV, h]
  · simp [runHyperV, h1, h2]

/-- C2 witness: on a plan9 host with no backend available, qemu rejects
with its availability message and firecracker with its OS restriction
message, allocating nothing. -/
theorem c2_witness :
    envNoAvail.isAvailable = false ∧
    runQEMU envNoAvail flagsW cfgW "vm" "" ⟨none⟩ =
      ⟨.error "qemu not installed on system", cfgW, ⟨none⟩, FS.initial, []⟩ ∧
    runFirecracker envNoAvail flagsW cfgW "vm" "" ⟨none⟩ =
      ⟨.error "firecracker is only available on linux", cfgW, ⟨none⟩, FS.initial, []⟩ :=
  ⟨rfl,
    ((c2_fail_fast_before_allocation envNoAvail flagsW cfgW "vm" "" ⟨none⟩).1 rfl).2.2,
    (c2_fail_fast_before_allocation envNoAvail flagsW cfgW "vm" "" ⟨none⟩).2.1
      (by decide)⟩

/-- C1: for every orchestration call in which the scratch directory and
the temporary disk file were created, on every exit path — whatever the
outcome of each later step and whether or not an output path was
supplied — the temporary disk file and the scratch directory no longer
exist when the call returns. -/
theorem c1_scope_removed_on_return (env : Env) (fl : Flags) (cfg : VCFG)
    (name out : String) (gs : GlobalState)
    (hm : env.mkdirOk = true) (hc : env.createFileOk = true) :
    (env.isAvailable = true →
      ((runVMware env fl cfg name out gs).fs.fileExists = false ∧
       (runVMware env fl cfg name out gs).fs.dirExists = false) ∧
      ((runVirtualBox env fl cfg name out gs).fs.fileExists = false ∧
       (runVirtualBox env fl cfg name out gs).fs.dirExists = false) ∧
      ((runQEMU env fl cfg name out gs).fs.fileExists = false ∧
       (runQEMU env fl cfg name out gs).fs.dirExists = false)) ∧
    (env.goos = "linux" → env.isAvailable = true →
      (env.fetchBridgeOk || env.setupBridgeOk) = true →
      (runFirecracker env fl cfg name out gs).fs.fileExists = false ∧
      (runFirecracker env fl cfg name out gs).fs.dirExists = false) ∧
    (env.goos = "windows" → env.isAvailable = true →
      (runHyperV env fl cfg name out gs).fs.fileExists = false ∧
      (runHyperV env fl cfg name out gs).fs.dirExists = false) := by
  refine ⟨fun ha => ⟨?_, ?_, ?_⟩, fun hg ha hb => ?_, fun hg ha => ?_⟩
  · unfold runVMware
    simp only [ha, hm, hc, if_true]
    repeat' split
    all_goals exact ⟨by rw [scopeExit_fs, finishScope_fs],
      by rw [scopeExit_fs, finishScope_fs]⟩
  · unfold runVirtualBox
    simp only [ha, hm, hc, if_true]
    repeat' split
    all_goals exact ⟨by rw [scopeExit_fs, finishScope_fs],
      by rw [scopeExit_fs, finishScope_fs]⟩
  · unfold runQEMU
    simp only [ha, hm, hc, if_true]
    repeat' split
    all_goals exact ⟨by rw [scopeExit_fs, finishScope_fs],
      by rw [scopeExit_fs, finishScope_fs]⟩
  · unfold runFirecracker
    simp only [hg, ha, hm, hc, hb, if_true]
    repeat' split
    all_goals exact ⟨by rw [scopeExit_fs, finishScope_fs],
      by rw [scopeExit_fs, finishScope_fs]⟩
  · unfold runHyperV
    simp only [hg, ha, hm, hc, if_true]
    repeat' split
    all_goals exact ⟨by rw [scopeExit_fs, finishScope_fs],
      by rw [scopeExit_fs, finishScope_fs]⟩

/-- C1 witness: a concrete qemu orchestration with an output path leaves
neither the temporary disk file nor the scratch directory behind. -/
theorem c1_witness :
    envAll.mkdirOk = true ∧ envAll.isAvailable = true ∧
    (runQEMU envAll flagsW cfgW "vm" "outdisk" ⟨none⟩).fs.fileExists = false ∧
    (runQEMU envAll flagsW cfgW "vm" "outdisk" ⟨none⟩).fs.dirExists = false :=
  ⟨rfl, rfl,
    ((c1_scope_removed_on_return envAll flagsW cfgW "vm" "outdisk" ⟨none⟩
      rfl rfl).1 rfl).2.2.1,
    ((c1_scope_removed_on_return envAll flagsW cfgW "vm" "outdisk" ⟨none⟩
      rfl rfl).1 rfl).2.2.2⟩

/-! ## Success-path characterizations -/

lemma buildFirecracker_success (env : Env) (nets : List VCFGNetwork) (vm : VCFGVM)
    (gs : GlobalState) (l : List String)
    (hq : availableIPs env gs = some l) (hlen : nets.length ≤ l.length)
    (hcb : env.createBuilderOk = true) (hng : env.negotiateOk = true)
    (hfb : env.formatBuildOk = true) :
    buildFirecracker env ⟨nets, vm⟩ gs =
      ⟨.ok env.kernelUsed, ⟨assignNets nets l, vm⟩,
        closeIfRegistered (resolveNetworks env nets gs false).registered
          (resolveNetworks env nets gs false).gs,
        (l.take nets.length).map Event.dequeue ++ [.buildDone]⟩ := by
  obtain ⟨he, hn, ht, -⟩ := resolveNetworks_from_available env nets gs l hq hlen
  unfold buildFirecracker
  dsimp only
  rw [he, hn, ht]
  simp [buildFCOutcome, Except.isOk, Except.toBool, hcb, hng, hfb]

lemma runQEMU_success (env : Env) (fl : Flags) (cfg : VCFG) (name out : String)
    (gs : GlobalState) (ha : env.isAvailable = true) (hm : env.mkdirOk = true)
    (hc : env.createFileOk = true) (hb : env.buildOk = true)
    (hcf : env.closeFileOk = true) (hcr : env.closeReaderOk = true)
    (hinit : env.initOk = true) (hwd : env.withDefaultsOk = true) :
    runQEMU env fl cfg name out gs =
      ⟨startOutcome env, cfg, gs,
        (finishScope true env out env.tmpFileName env.parentName ⟨true, true, true, false⟩).1,
        [Event.mkdir env.parentName, Event.fileOpen env.tmpFileName, Event.buildDone,
          Event.fileClose, Event.readerClose, Event.allocVirt,
          Event.virtInit (.qemu (!fl.flagGUI)), Event.start env.tmpFileName cfg name] ++
        (finishScope true env out env.tmpFileName env.parentName ⟨true, true, true, false⟩).2⟩ := by
  unfold runQEMU
  simp only [ha, hm, hc, hb, hcf, hcr, hinit, hwd, if_true]
  simp [scopeExit]

lemma runVirtualBox_success (env : Env) (fl : Flags) (cfg : VCFG) (name out : String)
    (gs : GlobalState) (ha : env.isAvailable = true) (hm : env.mkdirOk = true)
    (hc : env.createFileOk = true) (hb : env.buildOk = true)
    (hcf : env.closeFileOk = true) (hcr : env.closeReaderOk = true)
    (hinit : env.initOk = true) (hwd : env.withDefaultsOk = true) :
    runVirtualBox env fl cfg name out gs =
      ⟨startOutcome env, cfg, gs,
        (finishScope true env out env.tmpFileName env.parentName ⟨true, true, true, false⟩).1,
        [Event.mkdir env.parentName, Event.fileOpen env.tmpFileName, Event.buildDone,
          Event.fileClose, Event.readerClose, Event.allocVirt,
          Event.virtInit (.virtualbox (!fl.flagGUI) "nat"),
          Event.start env.tmpFileName cfg name] ++
        (finishScope true env out env.tmpFileName env.parentName ⟨true, true, true, false⟩).2⟩ := by
  unfold runVirtualBox
  simp only [ha, hm, hc, hb, hcf, hcr, hinit, hwd, if_true]
  simp [scopeExit]

lemma runVMware_success (env : Env) (fl : Flags) (cfg : VCFG) (name out : String)
    (gs : GlobalState) (ha : env.isAvailable = true) (hm : env.mkdirOk = true)
    (hc : env.createFileOk = true) (hb : env.buildOk = true)
    (hcf : env.closeFileOk = true) (hcr : env.closeReaderOk = true)
    (hinit : env.initOk = true) (hwd : env.withDefaultsOk = true) :
    runVMware env fl cfg name out gs =
      ⟨startOutcome env, cfg, gs,
        (finishScope false env out (vmwareDiskPath env) env.parentName
          ⟨true, true, true, false⟩).1,
        [Event.mkdir env.parentName, Event.fileOpen (vmwareDiskPath env), Event.buildDone,
          Event.fileClose, Event.readerClose, Event.allocVirt,
          Event.virtInit (.vmware (!fl.flagGUI) "nat"),
          Event.start (vmwareDiskPath env) cfg name] ++
        (finishScope false env out (vmwareDiskPath env) env.parentName
          ⟨true, true, true, false⟩).2⟩ := by
  unfold runVMware
  simp only [ha, hm, hc, hb, hcf, hcr, hinit, hwd, if_true]
  simp [scopeExit]

lemma runHyperV_success (env : Env) (fl : Flags) (cfg : VCFG) (name out : String)
    (gs : GlobalState) (hg : env.goos = "windows") (ha : env.isAvailable = true)
    (hm : env.mkdirOk = true) (hc : env.createFileOk = true) (hb : env.buildOk = true)
    (hcf : env.closeFileOk = true) (hcr : env.closeReaderOk = true)
    (hinit : env.initOk = true) (hwd : env.withDefaultsOk = true) :
    runHyperV env fl cfg name out gs =
      ⟨startOutcome env, cfg, gs,
        (finishScope false env out (hypervDiskPath env) env.parentName
          ⟨true, true, true, false⟩).1,
        [Event.mkdir env.parentName, Event.fileOpen (hypervDiskPath env), Event.buildDone,
          Event.fileClose, Event.readerClose, Event.allocVirt,
          Event.virtInit (.hyperv (!fl.flagGUI) "Default Switch"),
          Event.start (hypervDiskPath env) cfg name] ++
        (finishScope false env out (hypervDiskPath env) env.parentName
          ⟨true, true, true, false⟩).2⟩ := by
  unfold runHyperV
  simp only [hg, ha, hm, hc, hb, hcf, hcr, hinit, hwd, if_true]
  simp [scopeExit]

lemma runFirecracker_success (env : Env) (fl : Flags) (nets : List VCFGNetwork)
    (vm : VCFGVM) (name out : String) (gs : GlobalState) (l : List String)
    (hg : env.goos = "linux") (ha : env.isAvailable = true)
    (hbr : (env.fetchBridgeOk || env.setupBridgeOk) = true)
    (hq : availableIPs env gs = some l) (hlen : nets.length ≤ l.length)
    (hm : env.mkdirOk = true) (hc : env.createFileOk = true)
    (hwd : env.withDefaultsOk = true) (hcb : env.createBuilderOk = true)
    (hng : env.negotiateOk = true) (hfb : env.formatBuildOk = true)
    (hcf : env.closeFileOk = true) (hcr : env.closeReaderOk = true)
    (hinit : env.initOk = true) :
    runFirecracker env fl ⟨nets, vm⟩ name out gs =
      ⟨startOutcome env, ⟨assignNets nets l, ⟨env.kernelUsed⟩⟩,
        closeIfRegistered (resolveNetworks env nets gs false).registered
          (resolveNetworks env nets gs false).gs,
        (finishScope true env out env.tmpFileName env.parentName ⟨true, true, true, false⟩).1,
        (if env.fetchBridgeOk then [Event.bridgeFetched] else [Event.bridgeSetup BridgeIP]) ++
          [Event.mkdir env.parentName, Event.fileOpen env.tmpFileName] ++
          ((l.take nets.length).map Event.dequeue ++ [Event.buildDone]) ++
          [Event.kernelAssign env.kernelUsed, Event.fileClose, Event.readerClose,
            Event.allocVirt, Event.virtInit BackendConfig.firecracker,
            Event.start env.tmpFileName ⟨assignNets nets l, ⟨env.kernelUsed⟩⟩ name] ++
          (finishScope true env out env.tmpFileName env.parentName
            ⟨true, true, true, false⟩).2⟩ := by
  have hbuild := buildFirecracker_success env nets vm gs l hq hlen hcb hng hfb
  unfold runFirecracker
  simp only [hg, ha, hbr, hm, hc, hwd, hcf, hcr, hinit, if_true, hbuild]
  simp [scopeExit]

lemma countP_dequeue_map_zero (q : Event → Bool) (hq : ∀ s, q (Event.dequeue s) = false)
    (l : List String) : (l.map Event.dequeue).countP q = 0 := by
  induction l with
  | nil => rfl
  | cons x xs ih => simp [List.countP_cons, hq, ih]

lemma finishScope_countP_zero (b : Bool) (env : Env) (out fn p : String) (fs : FS)
    (q : Event → Bool) (h1 : ∀ s d ok, q (.rename s d ok) = false)
    (h2 : ∀ s, q (.removeFile s) = false) (h3 : ∀ s, q (.removeDir s) = false)
    (h4 : ∀ s, q (.removeAllDir s) = false) :
    (finishScope b env out fn p fs).2.countP q = 0 := by
  rw [finishScope_trace]
  by_cases ho : out ≠ "" <;> cases b <;>
    simp [ho, List.countP_append, List.countP_cons, h1, h2, h3, h4]

lemma bridge_countP_zero (c : Bool) (q : Event → Bool) (h1 : q .bridgeFetched = false)
    (h2 : ∀ g, q (.bridgeSetup g) = false) :
    ((if c then [Event.bridgeFetched] else [Event.bridgeSetup BridgeIP]) :
      List Event).countP q = 0 := by
  cases c <;> simp [List.countP_cons, h1, h2]

/-- C9: finalizing a build's resource scope a second time — closing the
file handle and removing the temporary file and directory after they are
already closed and removed — changes nothing (the teardown is idempotent
on the resource state), and the success path of `runQEMU`, on which the
explicit close precedes the deferred finalizer, still returns success. -/
theorem c9_double_finalize_harmless :
    (∀ (b : Bool) (env : Env) (out fn p : String) (fs : FS),
      (finishScope b env out fn p (finishScope b env out fn p fs).1).1 =
        (finishScope b env out fn p fs).1) ∧
    (∀ (env : Env) (fl : Flags) (cfg : VCFG) (name out : String) (gs : GlobalState),
      env.isAvailable = true → env.mkdirOk = true → env.createFileOk = true →
      env.buildOk = true → env.closeFileOk = true → env.closeReaderOk = true →
      env.initOk = true → env.withDefaultsOk = true → env.runOk = true →
      (runQEMU env fl cfg name out gs).result = .ok ()) := by
  constructor
  · intro b env out fn p fs
    rw [finishScope_fs, finishScope_fs]
    simp
  · intro env fl cfg name out gs ha hm hc hb hcf hcr hinit hwd hr
    rw [runQEMU_success env fl cfg name out gs ha hm hc hb hcf hcr hinit hwd]
    simp [startOutcome, hr]

/-- C9 witness: a concrete double teardown is a no-op and the concrete
qemu success path returns success. -/
theorem c9_witness :
    (finishScope true envAll "outdisk" "f" "p"
        (finishScope true envAll "outdisk" "f" "p" ⟨true, true, true, false⟩).1).1 =
      (finishScope true envAll "outdisk" "f" "p" ⟨true, true, true, false⟩).1 ∧
    envAll.runOk = true ∧
    (runQEMU envAll flagsW cfgW "vm" "outdisk" ⟨none⟩).result = .ok () :=
  ⟨c9_double_finalize_harmless.1 true envAll "outdisk" "f" "p" ⟨true, true, true, false⟩,
    rfl,
    c9_double_finalize_harmless.2 envAll flagsW cfgW "vm" "outdisk" ⟨none⟩
      rfl rfl rfl rfl rfl rfl rfl rfl rfl⟩

/-- C8: a qemu orchestration with zero declared networks whose external
steps succeed builds the disk, hands the virtualizer a configuration
whose Headless field is true when no display was requested, and invokes
start with the path of the produced disk file. -/
theorem c8_qemu_headless_scenario (env : Env) (fl : Flags) (cfg : VCFG)
    (name out : String) (gs : GlobalState)
    (hnets : cfg.Networks = []) (hgui : fl.flagGUI = false)
    (ha : env.isAvailable = true) (hm : env.mkdirOk = true)
    (hc : env.createFileOk = true) (hb : env.buildOk = true)
    (hcf : env.closeFileOk = true) (hcr : env.closeReaderOk = true)
    (hinit : env.initOk = true) (hwd : env.withDefaultsOk = true) :
    Event.buildDone ∈ (runQEMU env fl cfg name out gs).trace ∧
    Event.virtInit (.qemu true) ∈ (runQEMU env fl cfg name out gs).trace ∧
    Event.fileOpen env.tmpFileName ∈ (runQEMU env fl cfg name out gs).trace ∧
    Event.start env.tmpFileName cfg name ∈ (runQEMU env fl cfg name out gs).trace := by
  rw [runQEMU_success env fl cfg name out gs ha hm hc hb hcf hcr hinit hwd]
  dsimp only
  simp [hgui]

/-- C8 witness: the scenario at a concrete all-success environment with
no declared networks and no GUI flag. -/
theorem c8_witness :
    cfgW.Networks = [] ∧ flagsW.flagGUI = false ∧
    Event.virtInit (.qemu true) ∈ (runQEMU envAll flagsW cfgW "vm" "" ⟨none⟩).trace ∧
    Event.start envAll.tmpFileName cfgW "vm" ∈
      (runQEMU envAll flagsW cfgW "vm" "" ⟨none⟩).trace :=
  ⟨rfl, rfl,
    (c8_qemu_headless_scenario envAll flagsW cfgW "vm" "" ⟨none⟩
      rfl rfl rfl rfl rfl rfl rfl rfl rfl rfl).2.1,
    (c8_qemu_headless_scenario envAll flagsW cfgW "vm" "" ⟨none⟩
      rfl rfl rfl rfl rfl rfl rfl rfl rfl rfl).2.2.2⟩

/-- C4: on a successful firecracker orchestration, the configuration the
virtualizer is started with carries `VM.Kernel` equal to the kernel build
identifier reported by the image builder, and the kernel assignment
happens before the virtualizer is initialized (which happens once). -/
theorem c4_kernel_threaded_before_init (env : Env) (fl : Flags) (cfg : VCFG)
    (name out : String) (gs : GlobalState) (l : List String)
    (hg : env.goos = "linux") (ha : env.isAvailable = true)
    (hbr : (env.fetchBridgeOk || env.setupBridgeOk) = true)
    (hq : availableIPs env gs = some l) (hlen : cfg.Networks.length ≤ l.length)
    (hm : env.mkdirOk = true) (hc : env.createFileOk = true)
    (hwd : env.withDefaultsOk = true) (hcb : env.createBuilderOk = true)
    (hng : env.negotiateOk = true) (hfb : env.formatBuildOk = true)
    (hcf : env.closeFileOk = true) (hcr : env.closeReaderOk = true)
    (hinit : env.initOk = true) (hr : env.runOk = true) :
    (runFirecracker env fl cfg name out gs).result = .ok () ∧
    (runFirecracker env fl cfg name out gs).cfg.VM.Kernel = env.kernelUsed ∧
    Event.start env.tmpFileName (runFirecracker env fl cfg name out gs).cfg name ∈
      (runFirecracker env fl cfg name out gs).trace ∧
    occursBefore Event.isKernelAssign Event.isVirtInit
      (runFirecracker env fl cfg name out gs).trace ∧
    (runFirecracker env fl cfg name out gs).trace.countP Event.isVirtInit = 1 := by
  obtain ⟨nets, vm⟩ := cfg
  dsimp only at hlen
  rw [runFirecracker_success env fl nets vm name out gs l hg ha hbr hq hlen hm hc hwd
    hcb hng hfb hcf hcr hinit]
  have hbz := bridge_countP_zero env.fetchBridgeOk Event.isVirtInit rfl (fun _ => rfl)
  have hdz := countP_dequeue_map_zero Event.isVirtInit (fun _ => rfl)
    (l.take nets.length)
  have hfz := finishScope_countP_zero true env out env.tmpFileName env.parentName
    ⟨true, true, true, false⟩ Event.isVirtInit (fun _ _ _ => rfl) (fun _ => rfl)
    (fun _ => rfl) (fun _ => rfl)
  have h01 : List.countP Event.isVirtInit
      [Event.mkdir env.parentName, Event.fileOpen env.tmpFileName] = 0 := rfl
  have h02 : List.countP Event.isVirtInit [Event.buildDone] = 0 := rfl
  have h1mid : List.countP Event.isVirtInit
      [Event.kernelAssign env.kernelUsed, Event.fileClose, Event.readerClose,
        Event.allocVirt, Event.virtInit BackendConfig.firecracker,
        Event.start env.tmpFileName ⟨assignNets nets l, ⟨env.kernelUsed⟩⟩ name] = 1 := rfl
  have h2mid : List.countP Event.isVirtInit
      [Event.fileClose, Event.readerClose, Event.allocVirt,
        Event.virtInit BackendConfig.firecracker,
        Event.start env.tmpFileName ⟨assignNets nets l, ⟨env.kernelUsed⟩⟩ name] = 1 := rfl
  refine ⟨by simp [startOutcome, hr], rfl, by simp, ?_, ?_⟩
  · refine ⟨(if env.fetchBridgeOk then [Event.bridgeFetched]
        else [Event.bridgeSetup BridgeIP]) ++
        [Event.mkdir env.parentName, Event.fileOpen env.tmpFileName] ++
        ((l.take nets.length).map Event.dequeue ++ [Event.buildDone]),
      Event.kernelAssign env.kernelUsed,
      [Event.fileClose, Event.readerClose, Event.allocVirt,
        Event.virtInit BackendConfig.firecracker,
        Event.start env.tmpFileName ⟨assignNets nets l, ⟨env.kernelUsed⟩⟩ name] ++
        (finishScope true env out env.tmpFileName env.parentName
          ⟨true, true, true, false⟩).2, ?_, rfl, ?_, ?_⟩
    · simp
    · simp only [List.countP_append, hbz, hdz, h01, h02]
    · simp only [List.countP_append, hfz, h2mid]
      omega
  · simp only [List.countP_append, hbz, hdz, h01, h02, h1mid, hfz]

/-- C4 witness: the concrete successful firecracker orchestration carries
the builder's kernel identifier into the started configuration. -/
theorem c4_witness :
    envAll.goos = "linux" ∧
    (runFirecracker envAll flagsW cfgW "vm" "" ⟨none⟩).result = .ok () ∧
    (runFirecracker envAll flagsW cfgW "vm" "" ⟨none⟩).cfg.VM.Kernel =
      envAll.kernelUsed :=
  ⟨rfl,
    (c4_kernel_threaded_before_init envAll flagsW cfgW "vm" "" ⟨none⟩
      ["10.26.10.2", "10.26.10.3", "10.26.10.4"] rfl rfl rfl
      (by decide) (by decide) rfl rfl rfl rfl rfl rfl rfl rfl rfl rfl).1,
    (c4_kernel_threaded_before_init envAll flagsW cfgW "vm" "" ⟨none⟩
      ["10.26.10.2", "10.26.10.3", "10.26.10.4"] rfl rfl rfl
      (by decide) (by decide) rfl rfl rfl rfl rfl rfl rfl rfl rfl rfl).2.1⟩

/-- The sequencing C7 asserts of every successful orchestration trace:
the reader close and the virtualizer init each happen exactly once, the
reader close after the build completes, the init after the reader close,
and the start after the init. -/
def C7Post (r : RunResult) : Prop :=
  r.trace.countP Event.isReaderClose = 1 ∧
  r.trace.countP Event.isVirtInit = 1 ∧
  occursBefore Event.isBuildDone Event.isReaderClose r.trace ∧
  occursBefore Event.isReaderClose Event.isVirtInit r.trace ∧
  occursBefore Event.isVirtInit Event.isStart r.trace

/-- C7's abort clause: when the reader close fails, the orchestration
returns an error and the virtualizer is never allocated. -/
def C7Abort (r : RunResult) : Prop :=
  r.trace.countP Event.isAllocVirt = 0 ∧ ∃ e, r.result = .error e

lemma C7Post_of_standard_trace (r : RunResult) (pth fn : String) (c : BackendConfig)
    (cfg : VCFG) (name : String) (b : Bool) (env : Env) (out fn2 p2 : String) (fs : FS)
    (htr : r.trace =
      [Event.mkdir pth, Event.fileOpen fn, Event.buildDone, Event.fileClose,
        Event.readerClose, Event.allocVirt, Event.virtInit c,
        Event.start fn cfg name] ++ (finishScope b env out fn2 p2 fs).2) :
    C7Post r := by
  have hrc := finishScope_countP_zero b env out fn2 p2 fs Event.isReaderClose
    (fun _ _ _ => rfl) (fun _ => rfl) (fun _ => rfl) (fun _ => rfl)
  have hvi := finishScope_countP_zero b env out fn2 p2 fs Event.isVirtInit
    (fun _ _ _ => rfl) (fun _ => rfl) (fun _ => rfl) (fun _ => rfl)
  have hst := finishScope_countP_zero b env out fn2 p2 fs Event.isStart
    (fun _ _ _ => rfl) (fun _ => rfl) (fun _ => rfl) (fun _ => rfl)
  have e1 : List.countP Event.isReaderClose
      [Event.mkdir pth, Event.fileOpen fn, Event.buildDone, Event.fileClose,
        Event.readerClose, Event.allocVirt, Event.virtInit c,
        Event.start fn cfg name] = 1 := rfl
  have e2 : List.countP Event.isVirtInit
      [Event.mkdir pth, Event.fileOpen fn, Event.buildDone, Event.fileClose,
        Event.readerClose, Event.allocVirt, Event.virtInit c,
        Event.start fn cfg name] = 1 := rfl
  have e3 : List.countP Event.isReaderClose
      [Event.fileClose, Event.readerClose, Event.allocVirt, Event.virtInit c,
        Event.start fn cfg name] = 1 := rfl
  have e4 : List.countP Event.isVirtInit
      [Event.allocVirt, Event.virtInit c, Event.start fn cfg name] = 1 := rfl
  have e5 : List.countP Event.isStart [Event.start fn cfg name] = 1 := rfl
  refine ⟨?_, ?_, ?_, ?_, ?_⟩
  · rw [htr]; simp only [List.countP_append, e1, hrc]
  · rw [htr]; simp only [List.countP_append, e2, hvi]
  · rw [htr]
    refine ⟨[Event.mkdir pth, Event.fileOpen fn], Event.buildDone,
      [Event.fileClose, Event.readerClose, Event.allocVirt, Event.virtInit c,
        Event.start fn cfg name] ++ (finishScope b env out fn2 p2 fs).2,
      by simp, rfl, rfl, ?_⟩
    simp only [List.countP_append, e3, hrc]
    omega
  · rw [htr]
    refine ⟨[Event.mkdir pth, Event.fileOpen fn, Event.buildDone, Event.fileClose],
      Event.readerClose,
      [Event.allocVirt, Event.virtInit c, Event.start fn cfg name] ++
        (finishScope b env out fn2 p2 fs).2,
      by simp, rfl, rfl, ?_⟩
    simp only [List.countP_append, e4, hvi]
    omega
  · rw [htr]
    refine ⟨[Event.mkdir pth, Event.fileOpen fn, Event.buildDone, Event.fileClose,
        Event.readerClose, Event.allocVirt], Event.virtInit c,
      [Event.start fn cfg name] ++ (finishScope b env out fn2 p2 fs).2,
      by simp, rfl, rfl, ?_⟩
    simp only [List.countP_append, e5, hst]
    omega

lemma C7Post_of_fc_trace (r : RunResult) (c : Bool) (pth fn k : String)
    (ips : List String) (cfg2 : VCFG) (name : String) (b : Bool) (env : Env)
    (out fn2 p2 : String) (fs : FS)
    (htr : r.trace =
      (if c then [Event.bridgeFetched] else [Event.bridgeSetup BridgeIP]) ++
        [Event.mkdir pth, Event.fileOpen fn] ++
        (ips.map Event.dequeue ++ [Event.buildDone]) ++
        [Event.kernelAssign k, Event.fileClose, Event.readerClose, Event.allocVirt,
          Event.virtInit BackendConfig.firecracker, Event.start fn cfg2 name] ++
        (finishScope b env out fn2 p2 fs).2) :
    C7Post r := by
  have hrc := finishScope_countP_zero b env out fn2 p2 fs Event.isReaderClose
    (fun _ _ _ => rfl) (fun _ => rfl) (fun _ => rfl) (fun _ => rfl)
  have hvi := finishScope_countP_zero b env out fn2 p2 fs Event.isVirtInit
    (fun _ _ _ => rfl) (fun _ => rfl) (fun _ => rfl) (fun _ => rfl)
  have hst := finishScope_countP_zero b env out fn2 p2 fs Event.isStart
    (fun _ _ _ => rfl) (fun _ => rfl) (fun _ => rfl) (fun _ => rfl)
  have brc := bridge_countP_zero c Event.isReaderClose rfl (fun _ => rfl)
  have bvi := bridge_countP_zero c Event.isVirtInit rfl (fun _ => rfl)
  have drc := countP_dequeue_map_zero Event.isReaderClose (fun _ => rfl) ips
  have dvi := countP_dequeue_map_zero Event.isVirtInit (fun _ => rfl) ips
  have m1 : List.countP Event.isReaderClose
      [Event.mkdir pth, Event.fileOpen fn] = 0 := rfl
  have m2 : List.countP Event.isVirtInit
      [Event.mkdir pth, Event.fileOpen fn] = 0 := rfl
  have b1 : List.countP Event.isReaderClose [Event.buildDone] = 0 := rfl
  have b2 : List.countP Event.isVirtInit [Event.buildDone] = 0 := rfl
  have t1 : List.countP Event.isReaderClose
      [Event.kernelAssign k, Event.fileClose, Event.readerClose, Event.allocVirt,
        Event.virtInit BackendConfig.firecracker, Event.start fn cfg2 name] = 1 := rfl
  have t2 : List.countP Event.isVirtInit
      [Event.kernelAssign k, Event.fileClose, Event.readerClose, Event.allocVirt,
        Event.virtInit BackendConfig.firecracker, Event.start fn cfg2 name] = 1 := rfl
  have t3 : List.countP Event.isVirtInit
      [Event.allocVirt, Event.virtInit BackendConfig.firecracker,
        Event.start fn cfg2 name] = 1 := rfl
  have t4 : List.countP Event.isStart [Event.start fn cfg2 name] = 1 := rfl
  refine ⟨?_, ?_, ?_, ?_, ?_⟩
  · rw [htr]; simp only [List.countP_append, brc, drc, m1, b1, t1, hrc]
  · rw [htr]; simp only [List.countP_append, bvi, dvi, m2, b2, t2, hvi]
  · rw [htr]
    refine ⟨(if c then [Event.bridgeFetched] else [Event.bridgeSetup BridgeIP]) ++
        [Event.mkdir pth, Event.fileOpen fn] ++ ips.map Event.dequeue,
      Event.buildDone,
      [Event.kernelAssign k, Event.fileClose, Event.readerClose, Event.allocVirt,
        Event.virtInit BackendConfig.firecracker, Event.start fn cfg2 name] ++
        (finishScope b env out fn2 p2 fs).2,
      by simp, rfl, ?_, ?_⟩
    · simp only [List.countP_append, brc, drc, m1]
    · simp only [List.countP_append, t1, hrc]
      omega
  · rw [htr]
    refine ⟨(if c then [Event.bridgeFetched] else [Event.bridgeSetup BridgeIP]) ++
        [Event.mkdir pth, Event.fileOpen fn] ++
        (ips.map Event.dequeue ++ [Event.buildDone]) ++
        [Event.kernelAssign k, Event.fileClose],
      Event.readerClose,
      [Event.allocVirt, Event.virtInit BackendConfig.firecracker,
        Event.start fn cfg2 name] ++ (finishScope b env out fn2 p2 fs).2,
      by simp, rfl, ?_, ?_⟩
    · have kfc : List.countP Event.isVirtInit
        [Event.kernelAssign k, Event.fileClose] = 0 := rfl
      simp only [List.countP_append, bvi, dvi, m2, b2, kfc]
    · simp only [List.countP_append, t3, hvi]
      omega
  · rw [htr]
    refine ⟨(if c then [Event.bridgeFetched] else [Event.bridgeSetup BridgeIP]) ++
        [Event.mkdir pth, Event.fileOpen fn] ++
        (ips.map Event.dequeue ++ [Event.buildDone]) ++
        [Event.kernelAssign k, Event.fileClose, Event.readerClose, Event.allocVirt],
      Event.virtInit BackendConfig.firecracker,
      [Event.start fn cfg2 name] ++ (finishScope b env out fn2 p2 fs).2,
      by simp, rfl, ?_, ?_⟩
    · have bst := bridge_countP_zero c Event.isStart rfl (fun _ => rfl)
      have dst := countP_dequeue_map_zero Event.isStart (fun _ => rfl) ips
      have m3 : List.countP Event.isStart [Event.mkdir pth, Event.fileOpen fn] = 0 := rfl
      have b3 : List.countP Event.isStart [Event.buildDone] = 0 := rfl
      have k3 : List.countP Event.isStart
        [Event.kernelAssign k, Event.fileClose, Event.readerClose,
          Event.allocVirt] = 0 := rfl
      simp only [List.countP_append, bst, dst, m3, b3, k3]
    · simp only [List.countP_append, t4, hst]
      omega

lemma C7Abort_of_scopeExit (b : Bool) (env : Env) (out fn p e : String) (cfg : VCFG)
    (gs : GlobalState) (fs : FS) (tr : List Event)
    (htr : tr.countP Event.isAllocVirt = 0) :
    C7Abort (scopeExit b env out fn p (.error e) cfg gs fs tr) := by
  constructor
  · rw [scopeExit_trace]
    have hfz := finishScope_countP_zero b env out fn p fs Event.isAllocVirt
      (fun _ _ _ => rfl) (fun _ => rfl) (fun _ => rfl) (fun _ => rfl)
    simp only [List.countP_append, htr, hfz]
  · exact ⟨e, rfl⟩

lemma runQEMU_readerFail (env : Env) (fl : Flags) (cfg : VCFG) (name out : String)
    (gs : GlobalState) (ha : env.isAvailable = true) (hm : env.mkdirOk = true)
    (hc : env.createFileOk = true) (hb : env.buildOk = true)
    (hcf : env.closeFileOk = true) (hcr : env.closeReaderOk = false) :
    runQEMU env fl cfg name out gs =
      scopeExit true env out env.tmpFileName env.parentName
        (.error "reader close failed") cfg gs ⟨true, true, true, false⟩
        [Event.mkdir env.parentName, Event.fileOpen env.tmpFileName, Event.buildDone,
          Event.fileClose, Event.readerClose] := by
  unfold runQEMU
  simp only [ha, hm, hc, hb, hcf, hcr, if_true, Bool.false_eq_true, if_false]
  simp [scopeExit]

lemma runVirtualBox_readerFail (env : Env) (fl : Flags) (cfg : VCFG) (name out : String)
    (gs : GlobalState) (ha : env.isAvailable = true) (hm : env.mkdirOk = true)
    (hc : env.createFileOk = true) (hb : env.buildOk = true)
    (hcf : env.closeFileOk = true) (hcr : env.closeReaderOk = false) :
    runVirtualBox env fl cfg name out gs =
      scopeExit true env out env.tmpFileName env.parentName
        (.error "reader close failed") cfg gs ⟨true, true, true, false⟩
        [Event.mkdir env.parentName, Event.fileOpen env.tmpFileName, Event.buildDone,
          Event.fileClose, Event.readerClose] := by
  unfold runVirtualBox
  simp only [ha, hm, hc, hb, hcf, hcr, if_true, Bool.false_eq_true, if_false]
  simp [scopeExit]

lemma runVMware_readerFail (env : Env) (fl : Flags) (cfg : VCFG) (name out : String)
    (gs : GlobalState) (ha : env.isAvailable = true) (hm : env.mkdirOk = true)
    (hc : env.createFileOk = true) (hb : env.buildOk = true)
    (hcf : env.closeFileOk = true) (hcr : env.closeReaderOk = false) :
    runVMware env fl cfg name out gs =
      scopeExit false env out (vmwareDiskPath env) env.parentName
        (.error "reader close failed") cfg gs ⟨true, true, true, false⟩
        [Event.mkdir env.parentName, Event.fileOpen (vmwareDiskPath env), Event.buildDone,
          Event.fileClose, Event.readerClose] := by
  unfold runVMware
  simp only [ha, hm, hc, hb, hcf, hcr, if_true, Bool.false_eq_true, if_false]
  simp [scopeExit]

lemma runHyperV_readerFail (env : Env) (fl : Flags) (cfg : VCFG) (name out : String)
    (gs : GlobalState) (hg : env.goos = "windows") (ha : env.isAvailable = true)
    (hm : env.mkdirOk = true) (hc : env.createFileOk = true) (hb : env.buildOk = true)
    (hcf : env.closeFileOk = true) (hcr : env.closeReaderOk = false) :
    runHyperV env fl cfg name out gs =
      scopeExit false env out (hypervDiskPath env) env.parentName
        (.error "reader close failed") cfg gs ⟨true, true, true, false⟩
        [Event.mkdir env.parentName, Event.fileOpen (hypervDiskPath env), Event.buildDone,
          Event.fileClose, Event.readerClose] := by
  unfold runHyperV
  simp only [hg, ha, hm, hc, hb, hcf, hcr, if_true, Bool.false_eq_true, if_false]
  simp [scopeExit]

lemma runFirecracker_readerFail (env : Env) (fl : Flags) (nets : List VCFGNetwork)
    (vm : VCFGVM) (name out : String) (gs : GlobalState) (l : List String)
    (hg : env.goos = "linux") (ha : env.isAvailable = true)
    (hbr : (env.fetchBridgeOk || env.setupBridgeOk) = true)
    (hq : availableIPs env gs = some l) (hlen : nets.length ≤ l.length)
    (hm : env.mkdirOk = true) (hc : env.createFileOk = true)
    (hwd : env.withDefaultsOk = true) (hcb : env.createBuilderOk = true)
    (hng : env.negotiateOk = true) (hfb : env.formatBuildOk = true)
    (hcf : env.closeFileOk = true) (hcr : env.closeReaderOk = false) :
    runFirecracker env fl ⟨nets, vm⟩ name out gs =
      scopeExit true env out env.tmpFileName env.parentName
        (.error "reader close failed") ⟨assignNets nets l, ⟨env.kernelUsed⟩⟩
        (closeIfRegistered (resolveNetworks env nets gs false).registered
          (resolveNetworks env nets gs false).gs) ⟨true, true, true, false⟩
        ((if env.fetchBridgeOk then [Event.bridgeFetched]
            else [Event.bridgeSetup BridgeIP]) ++
          [Event.mkdir env.parentName, Event.fileOpen env.tmpFileName] ++
          ((l.take nets.length).map Event.dequeue ++ [Event.buildDone]) ++
          [Event.kernelAssign env.kernelUsed, Event.fileClose, Event.readerClose]) := by
  have hbuild := buildFirecracker_success env nets vm gs l hq hlen hcb hng hfb
  unfold runFirecracker
  simp only [hg, ha, hbr, hm, hc, hwd, hbuild, hcf, hcr, if_true, Bool.false_eq_true,
    if_false]
  simp [scopeExit]

/-- C7: on every successful orchestration, the reader close happens
exactly once, after the disk build completes and before the virtualizer
is initialized; the virtualizer init happens exactly once, after the
reader close and before start; and a reader-close failure aborts the
orchestration before the virtualizer is allocated. -/
theorem c7_close_then_init_then_start (env : Env) (fl : Flags) (cfg : VCFG)
    (name out : String) (gs : GlobalState) (l : List String) :
    (env.isAvailable = true → env.mkdirOk = true → env.createFileOk = true →
      env.buildOk = true → env.closeFileOk = true → env.closeReaderOk = true →
      env.initOk = true → env.withDefaultsOk = true →
      C7Post (runQEMU env fl cfg name out gs) ∧
      C7Post (runVirtualBox env fl cfg name out gs) ∧
      C7Post (runVMware env fl cfg name out gs) ∧
      (env.goos = "windows" → C7Post (runHyperV env fl cfg name out gs))) ∧
    (env.goos = "linux" → env.isAvailable = true →
      (env.fetchBridgeOk || env.setupBridgeOk) = true →
      availableIPs env gs = some l → cfg.Networks.length ≤ l.length →
      env.mkdirOk = true → env.createFileOk = true → env.withDefaultsOk = true →
      env.createBuilderOk = true → env.negotiateOk = true →
      env.formatBuildOk = true → env.closeFileOk = true → env.closeReaderOk = true →
      env.initOk = true → C7Post (runFirecracker env fl cfg name out gs)) ∧
    (env.closeReaderOk = false → env.isAvailable = true → env.mkdirOk = true →
      env.createFileOk = true → env.buildOk = true → env.closeFileOk = true →
      C7Abort (runQEMU env fl cfg name out gs) ∧
      C7Abort (runVirtualBox env fl cfg name out gs) ∧
      C7Abort (runVMware env fl cfg name out gs) ∧
      (env.goos = "windows" → C7Abort (runHyperV env fl cfg name out gs))) ∧
    (env.closeReaderOk = false → env.goos = "linux" → env.isAvailable = true →
      (env.fetchBridgeOk || env.setupBridgeOk) = true →
      availableIPs env gs = some l → cfg.Networks.length ≤ l.length →
      env.mkdirOk = true → env.createFileOk = true → env.withDefaultsOk = true →
      env.createBuilderOk = true → env.negotiateOk = true →
      env.formatBuildOk = true → env.closeFileOk = true →
      C7Abort (runFirecracker env fl cfg name out gs)) := by
  refine ⟨fun ha hm hc hb hcf hcr hinit hwd => ⟨?_, ?_, ?_, fun hg => ?_⟩,
    fun hg ha hbr hq hlen hm hc hwd hcb hng hfb hcf hcr hinit => ?_,
    fun hcr ha hm hc hb hcf => ⟨?_, ?_, ?_, fun hg => ?_⟩,
    fun hcr hg ha hbr hq hlen hm hc hwd hcb hng hfb hcf => ?_⟩
  · rw [runQEMU_success env fl cfg name out gs ha hm hc hb hcf hcr hinit hwd]
    exact C7Post_of_standard_trace _ env.parentName env.tmpFileName
      (.qemu (!fl.flagGUI)) cfg name true env out env.tmpFileName env.parentName
      ⟨true, true, true, false⟩ rfl
  · rw [runVirtualBox_success env fl cfg name out gs ha hm hc hb hcf hcr hinit hwd]
    exact C7Post_of_standard_trace _ env.parentName env.tmpFileName
      (.virtualbox (!fl.flagGUI) "nat") cfg name true env out env.tmpFileName
      env.parentName ⟨true, true, true, false⟩ rfl
  · rw [runVMware_success env fl cfg name out gs ha hm hc hb hcf hcr hinit hwd]
    exact C7Post_of_standard_trace _ env.parentName (vmwareDiskPath env)
      (.vmware (!fl.flagGUI) "nat") cfg name false env out (vmwareDiskPath env)
      env.parentName ⟨true, true, true, false⟩ rfl
  · rw [runHyperV_success env fl cfg name out gs hg ha hm hc hb hcf hcr hinit hwd]
    exact C7Post_of_standard_trace _ env.parentName (hypervDiskPath env)
      (.hyperv (!fl.flagGUI) "Default Switch") cfg name false env out
      (hypervDiskPath env) env.parentName ⟨true, true, true, false⟩ rfl
  · obtain ⟨nets, vm⟩ := cfg
    dsimp only at hlen
    rw [runFirecracker_success env fl nets vm name out gs l hg ha hbr hq hlen hm hc hwd
      hcb hng hfb hcf hcr hinit]
    exact C7Post_of_fc_trace _ env.fetchBridgeOk env.parentName env.tmpFileName
      env.kernelUsed (l.take nets.length) ⟨assignNets nets l, ⟨env.kernelUsed⟩⟩ name
      true env out env.tmpFileName env.parentName ⟨true, true, true, false⟩ rfl
  · rw [runQEMU_readerFail env fl cfg name out gs ha hm hc hb hcf hcr]
    exact C7Abort_of_scopeExit _ _ _ _ _ _ _ _ _ _ rfl
  · rw [runVirtualBox_readerFail env fl cfg name out gs ha hm hc hb hcf hcr]
    exact C7Abort_of_scopeExit _ _ _ _ _ _ _ _ _ _ rfl
  · rw [runVMware_readerFail env fl cfg name out gs ha hm hc hb hcf hcr]
    exact C7Abort_of_scopeExit _ _ _ _ _ _ _ _ _ _ rfl
  · rw [runHyperV_readerFail env fl cfg name out gs hg ha hm hc hb hcf hcr]
    exact C7Abort_of_scopeExit _ _ _ _ _ _ _ _ _ _ rfl
  · obtain ⟨nets, vm⟩ := cfg
    dsimp only at hlen
    rw [runFirecracker_readerFail env fl nets vm name out gs l hg ha hbr hq hlen hm hc
      hwd hcb hng hfb hcf hcr]
    refine C7Abort_of_scopeExit _ _ _ _ _ _ _ _ _ _ ?_
    have hbz := bridge_countP_zero env.fetchBridgeOk Event.isAllocVirt rfl (fun _ => rfl)
    have hdz := countP_dequeue_map_zero Event.isAllocVirt (fun _ => rfl)
      (l.take nets.length)
    have h1 : List.countP Event.isAllocVirt
      [Event.mkdir env.parentName, Event.fileOpen env.tmpFileName] = 0 := rfl
    have h2 : List.countP Event.isAllocVirt [Event.buildDone] = 0 := rfl
    have h3 : List.countP Event.isAllocVirt
      [Event.kernelAssign env.kernelUsed, Event.fileClose, Event.readerClose] = 0 := rfl
    simp only [List.countP_append, hbz, hdz, h1, h2, h3]

/-- C7 witness: the concrete all-success qemu and firecracker
orchestrations satisfy the sequencing facts. -/
theorem c7_witness :
    envAll.closeReaderOk = true ∧
    C7Post (runQEMU envAll flagsW cfgW "vm" "" ⟨none⟩) ∧
    C7Post (runFirecracker envAll flagsW cfgW "vm" "" ⟨none⟩) :=
  ⟨rfl,
    ((c7_close_then_init_then_start envAll flagsW cfgW "vm" "" ⟨none⟩
      ["10.26.10.2", "10.26.10.3", "10.26.10.4"]).1
      rfl rfl rfl rfl rfl rfl rfl rfl).1,
    (c7_close_then_init_then_start envAll flagsW cfgW "vm" "" ⟨none⟩
      ["10.26.10.2", "10.26.10.3", "10.26.10.4"]).2.1
      rfl rfl rfl (by decide) (by decide) rfl rfl rfl rfl rfl rfl rfl rfl rfl⟩

lemma availableIPs_renameOk (env : Env) (rv : Bool) (gs : GlobalState) :
    availableIPs { env with renameOk := rv } gs = availableIPs env gs := by
  unfold availableIPs
  rcases gs with ⟨_ | q⟩ <;> rfl

/-- C5: for every orchestration call with a non-empty output path that
created its disk file and whose build step succeeded, relocation is
attempted inside finalization whatever the outcome of the later steps
(the trace carries the rename attempt), and the relocation outcome never
changes the returned result — the result equals the one obtained when
relocation succeeds. -/
theorem c5_relocation_inside_finalize (env : Env) (fl : Flags) (cfg : VCFG)
    (name out : String) (gs : GlobalState) (l : List String) (hout : out ≠ "") :
    (env.isAvailable = true → env.mkdirOk = true → env.createFileOk = true →
      env.buildOk = true →
      (Event.rename env.tmpFileName out env.renameOk ∈
          (runQEMU env fl cfg name out gs).trace ∧
        (runQEMU env fl cfg name out gs).result =
          (runQEMU { env with renameOk := true } fl cfg name out gs).result) ∧
      (Event.rename env.tmpFileName out env.renameOk ∈
          (runVirtualBox env fl cfg name out gs).trace ∧
        (runVirtualBox env fl cfg name out gs).result =
          (runVirtualBox { env with renameOk := true } fl cfg name out gs).result) ∧
      (Event.rename (vmwareDiskPath env) out env.renameOk ∈
          (runVMware env fl cfg name out gs).trace ∧
        (runVMware env fl cfg name out gs).result =
          (runVMware { env with renameOk := true } fl cfg name out gs).result) ∧
      (env.goos = "windows" →
        Event.rename (hypervDiskPath env) out env.renameOk ∈
          (runHyperV env fl cfg name out gs).trace ∧
        (runHyperV env fl cfg name out gs).result =
          (runHyperV { env with renameOk := true } fl cfg name out gs).result)) ∧
    (env.goos = "linux" → env.isAvailable = true →
      (env.fetchBridgeOk || env.setupBridgeOk) = true →
      availableIPs env gs = some l → cfg.Networks.length ≤ l.length →
      env.mkdirOk = true → env.createFileOk = true → env.withDefaultsOk = true →
      env.createBuilderOk = true → env.negotiateOk = true → env.formatBuildOk = true →
      Event.rename env.tmpFileName out env.renameOk ∈
        (runFirecracker env fl cfg name out gs).trace ∧
      (runFirecracker env fl cfg name out gs).result =
        (runFirecracker { env with renameOk := true } fl cfg name out gs).result) := by
  refine ⟨fun ha hm hc hb => ⟨⟨?_, ?_⟩, ⟨?_, ?_⟩, ⟨?_, ?_⟩, fun hg => ⟨?_, ?_⟩⟩,
    fun hg ha hbr hq hlen hm hc hwd hcb hng hfb => ⟨?_, ?_⟩⟩
  · unfold runQEMU
    simp only [ha, hm, hc, hb, if_true]
    repeat' split
    all_goals rw [scopeExit_trace, finishScope_trace]
    all_goals simp [hout]
  · unfold runQEMU
    dsimp only
    simp only [ha, hm, hc, hb, if_true]
    repeat' split
    all_goals simp only [scopeExit_result, startOutcome]
  · unfold runVirtualBox
    simp only [ha, hm, hc, hb, if_true]
    repeat' split
    all_goals rw [scopeExit_trace, finishScope_trace]
    all_goals simp [hout]
  · unfold runVirtualBox
    dsimp only
    simp only [ha, hm, hc, hb, if_true]
    repeat' split
    all_goals simp only [scopeExit_result, startOutcome]
  · unfold runVMware
    simp only [ha, hm, hc, hb, if_true]
    repeat' split
    all_goals rw [scopeExit_trace, finishScope_trace]
    all_goals simp [hout]
  · unfold runVMware
    dsimp only
    simp only [ha, hm, hc, hb, if_true]
    repeat' split
    all_goals simp only [scopeExit_result, startOutcome]
  · unfold runHyperV
    simp only [hg, ha, hm, hc, hb, if_true]
    repeat' split
    all_goals rw [scopeExit_trace, finishScope_trace]
    all_goals simp [hout]
  · unfold runHyperV
    dsimp only
    simp only [hg, ha, hm, hc, hb, if_true]
    repeat' split
    all_goals simp only [scopeExit_result, startOutcome]
  · obtain ⟨nets, vm⟩ := cfg
    dsimp only at hlen
    have hbuild := buildFirecracker_success env nets vm gs l hq hlen hcb hng hfb
    unfold runFirecracker
    simp only [hg, ha, hbr, hm, hc, hwd, hbuild, if_true]
    repeat' split
    all_goals rw [scopeExit_trace, finishScope_trace]
    all_goals simp [hout]
  · obtain ⟨nets, vm⟩ := cfg
    dsimp only at hlen
    have hbuild := buildFirecracker_success env nets vm gs l hq hlen hcb hng hfb
    have hbuild' := buildFirecracker_success { env with renameOk := true } nets vm gs l
      (by rw [availableIPs_renameOk]; exact hq) hlen hcb hng hfb
    unfold runFirecracker
    rw [hbuild, hbuild']
    dsimp only
    simp only [hg, ha, hbr, hm, hc, hwd, if_true]
    repeat' split
    all_goals simp only [scopeExit_result, startOutcome]

/-- C5 witness: a qemu orchestration with an output path on which the
rename fails still reports the same outcome as when the rename succeeds,
and the trace carries the failed rename attempt. -/
theorem c5_witness :
    ("outdisk" : String) ≠ "" ∧
    Event.rename envAll.tmpFileName "outdisk" envAll.renameOk ∈
      (runQEMU envAll flagsW cfgW "vm" "outdisk" ⟨none⟩).trace ∧
    (runQEMU envAll flagsW cfgW "vm" "outdisk" ⟨none⟩).result =
      (runQEMU { envAll with renameOk := true } flagsW cfgW "vm" "outdisk"
        ⟨none⟩).result :=
  ⟨by decide,
    (((c5_relocation_inside_finalize envAll flagsW cfgW "vm" "outdisk" ⟨none⟩ []
      (by decide)).1 rfl rfl rfl rfl).1).1,
    (((c5_relocation_inside_finalize envAll flagsW cfgW "vm" "outdisk" ⟨none⟩ []
      (by decide)).1 rfl rfl rfl rfl).1).2⟩

end Vorteil
